import Mathlib

/-!
Verification of the Space-Lang compiler front-end (lexer sizing pass,
parse-tree builder and semantic analyzer) against its specification.

The development is a shallow embedding of the C sources:
* `src/main/input.c` (lexer sizing pass),
* `src/src/parsetreeGenerator.c` (parse-tree builder),
* `src/src/semanticAnalyzer.c` (semantic analyzer).

Modelling conventions, applied uniformly:
* C character buffers become `List Char`; reads use `List.getD` with the
  NUL character as default, matching the NUL-terminated calloc buffer.
* C token arrays become `List TOKEN`; `TOKEN_LENGTH` is the list length and
  out-of-range reads yield an end-of-file sentinel token, matching the EOF
  sentinel that terminates the real token array.
* Source line/column fields and diagnostic message strings are omitted:
  they do not influence any control flow checked here.
* C loops are written as recursive functions.  Loops whose index advances by
  a computed amount take an explicit gas parameter (decremented once per
  iteration) with the C loop guard tested inside; top-level wrappers supply
  gas that dominates every possible iteration count, so the gas never alters
  the modelled behaviour on inputs the wrappers are used with.
* Functions that mutate through pointers return the updated values instead;
  error reporting (`THROW_…`, which prints and continues) is modelled by
  returning the list of emitted reports.
-/

set_option maxRecDepth 100000
set_option maxHeartbeats 3200000

/-- Shorthand turning a string literal into the character list used by the
embedding. -/
def cs (s : String) : List Char := s.toList

/-- Read a byte of the source buffer; out-of-range reads give the NUL that
terminates the calloc'd C buffer (`reserve_buffer` writes `buffer[len] = 0`). -/
def bget (buffer : List Char) (i : Nat) : Char := buffer.getD i '\x00'

/-- Modelled from the spec: whitespace of the 7-bit ASCII source format
(`is_space`, declared in `modules.h`, defined outside src/). -/
def is_space (c : Char) : Bool :=
  c = ' ' || c = '\t' || c = '\n' || c = '\r'

/-- Modelled from the spec: decimal digits `[0-9]` (`is_digit`, declared in
`modules.h`, defined outside src/). -/
def is_digit (c : Char) : Bool :=
  '0' ≤ c && c ≤ '9'

/-- Modelled from the spec: the single characters that can begin an operator
or punctuation lexeme per §6 (`check_for_operator`, declared in `modules.h`,
defined outside src/).  `"` and `'` are not operator characters; string and
character literals are dispatched separately. -/
def check_for_operator (c : Char) : Bool :=
  c = '+' || c = '-' || c = '*' || c = '/' || c = '%' || c = '=' || c = '!' ||
  c = '<' || c = '>' || c = '(' || c = ')' || c = '{' || c = '}' || c = '[' ||
  c = ']' || c = ';' || c = ',' || c = ':' || c = '.' || c = '?' || c = '&'

/-- C `check_double_operator` from `src/main/input.c`. -/
def check_double_operator (currentInputChar NextInputChar : Char) : Bool :=
  if (currentInputChar = '+' || currentInputChar = '-' || currentInputChar = '/'
      || currentInputChar = '*' || currentInputChar = '!') && NextInputChar = '=' then
    true
  else if (currentInputChar = '+' && NextInputChar = '+')
      || (currentInputChar = '-' && NextInputChar = '-')
      || (currentInputChar = '=' && NextInputChar = '=') then
    true
  else if (currentInputChar = '<' || currentInputChar = '>') && NextInputChar = '=' then
    true
  else if currentInputChar = '-' && NextInputChar = '>' then
    true
  else if currentInputChar = '=' && NextInputChar = '>' then
    true
  else
    false

/-- Loop of C `skip_buffer_comment` (`src/main/input.c`); `skip` starts at 1,
the guard is `currentPos + skip < bufferLength`. -/
def skip_buffer_comment_loop (buffer : List Char) (bufferLength currentPos : Nat)
    (crucialChar : Char) : Nat → Nat → Nat
  | skip, 0 => skip
  | skip, gas+1 =>
    if currentPos + skip < bufferLength then
      if crucialChar = '/' then
        if bget buffer (currentPos + skip) = '\n' then skip
        else skip_buffer_comment_loop buffer bufferLength currentPos crucialChar (skip+1) gas
      else if crucialChar = '*' then
        if bget buffer (currentPos + skip) = '*'
            && bget buffer (currentPos + skip + 1) = '/' then skip + 1
        else skip_buffer_comment_loop buffer bufferLength currentPos crucialChar (skip+1) gas
      else
        -- the C code only prints a diagnostic here and keeps scanning
        skip_buffer_comment_loop buffer bufferLength currentPos crucialChar (skip+1) gas
    else skip

/-- C `skip_buffer_comment` from `src/main/input.c`. -/
def skip_buffer_comment (buffer : List Char) (currentPos bufferLength : Nat)
    (crucialChar : Char) : Nat :=
  skip_buffer_comment_loop buffer bufferLength currentPos crucialChar 1 (bufferLength + 1)

/-- Counting loop of C `is_correct_pointer`: skip over consecutive `*`. -/
def is_correct_pointer_loop (buffer : List Char) (maxSize pos : Nat) : Nat → Nat → Nat
  | skips, 0 => skips
  | skips, gas+1 =>
    if pos + skips < maxSize then
      if bget buffer (pos + skips) = '*' then
        is_correct_pointer_loop buffer maxSize pos (skips+1) gas
      else skips
    else skips

/-- C `is_correct_pointer` from `src/main/input.c`. -/
def is_correct_pointer (buffer : List Char) (currentBufferCharPos maxSize : Nat) : Bool :=
  let skips := is_correct_pointer_loop buffer maxSize currentBufferCharPos 0 (maxSize + 1)
  if is_space (bget buffer (currentBufferCharPos + skips))
      || is_digit (bget buffer (currentBufferCharPos + skips))
      || check_for_operator (bget buffer (currentBufferCharPos + skips)) then
    false
  else
    true

/-- Loop of C `add_identifiers` (`src/main/input.c`).  Returns the final
`identifierLength`.  The C reads `buffer[pos + len - 1]` in the decimal-point
case; with `len = 0` that is an out-of-range read, modelled by truncated
subtraction (the case is unreachable because `.` never starts an identifier
lexeme). -/
def add_identifiers_loop (buffer : List Char) (bufferLength pos : Nat) :
    Nat → Bool → Nat → Nat
  | len, _, 0 => len
  | len, isInReferenceToPointer, gas+1 =>
    if pos + len < bufferLength then
      let c := bget buffer (pos + len)
      if is_space c then len
      else if check_for_operator c then
        if c = '&' then
          let inRef := if bget buffer (pos + len + 1) = '(' then true
                       else isInReferenceToPointer
          add_identifiers_loop buffer bufferLength pos (len+1) inRef gas
        else if c = '.' then
          if is_digit (bget buffer (pos + len - 1))
              && is_digit (bget buffer (pos + len + 1)) then
            add_identifiers_loop buffer bufferLength pos (len+1) isInReferenceToPointer gas
          else len
        else if c = '*' then
          if isInReferenceToPointer then
            add_identifiers_loop buffer bufferLength pos (len+1) isInReferenceToPointer gas
          else
            -- C falls through to the trailing `#` lookahead and `len++`
            if bget buffer (pos + len + 1) = '#' then len
            else add_identifiers_loop buffer bufferLength pos (len+1) isInReferenceToPointer gas
        else if c = ')' || c = '(' then
          if isInReferenceToPointer then
            add_identifiers_loop buffer bufferLength pos (len+1) false gas
          else len
        else if c = '-' && is_digit (bget buffer (pos + len + 1)) then
          add_identifiers_loop buffer bufferLength pos (len+1) isInReferenceToPointer gas
        else len
      else
        if bget buffer (pos + len + 1) = '#' then len
        else add_identifiers_loop buffer bufferLength pos (len+1) isInReferenceToPointer gas
    else len

/-- C `add_identifiers` from `src/main/input.c`.  Returns
`(recorded token size, amount the loop index advances)`; the C stores
`identifierLength + 1` into the size array and returns
`identifierLength - 1`. -/
def add_identifiers (buffer : List Char) (bufferLength pos : Nat) : Nat × Nat :=
  let len := add_identifiers_loop buffer bufferLength pos 0 false (bufferLength + 1)
  (len + 1, len - 1)

/-- C `set_operator_size` from `src/main/input.c`.  Returns
`(recorded token size, return value)`. -/
def set_operator_size (buffer : List Char) (bufferLength pos : Nat) : Nat × Nat :=
  if pos + 1 < bufferLength
      && check_double_operator (bget buffer pos) (bget buffer (pos + 1)) then
    (3, 1)
  else (2, 0)

/-- Loop of C `skip_string` (`src/main/input.c`): advance `lengthOfString`
while `currentTokenNumber + lengthOfString < bufferLength` and the scanned
character is not an unescaped `"`.  Note the C guard really does use the
token number, not the buffer position. -/
def skip_string_loop (buffer : List Char) (bufferLength pos tokenNumber : Nat) :
    Nat → Nat → Nat
  | len, 0 => len
  | len, gas+1 =>
    if tokenNumber + len < bufferLength
        && (bget buffer (pos + len) ≠ '"' || bget buffer (pos + len - 1) = '\\') then
      skip_string_loop buffer bufferLength pos tokenNumber (len+1) gas
    else len

/-- C `skip_string` from `src/main/input.c`.  Returns the loop result
`lengthOfString`; the caller records `lengthOfString + 2` as the token size. -/
def skip_string (buffer : List Char) (bufferLength pos tokenNumber : Nat) : Nat :=
  skip_string_loop buffer bufferLength pos tokenNumber 1 (bufferLength + 1)

/-- Main loop of C `get_minimum_token_number` (`src/main/input.c`).  The
state is the byte position `i`, the running `tokenNumber` and the list of
recorded token sizes (the C writes each size at index `tokenNumber` and then
increments `tokenNumber`, so the writes are sequential appends). -/
def get_minimum_token_number_loop (buffer : List Char) (bufferLength : Nat) :
    Nat → Nat → List Nat → Nat → Nat × List Nat
  | _, tokenNumber, sizes, 0 => (tokenNumber, sizes)
  | i, tokenNumber, sizes, gas+1 =>
    if i < bufferLength then
      if bget buffer i = '/' && (bget buffer (i+1) = '/' || bget buffer (i+1) = '*') then
        let skip := skip_buffer_comment buffer i bufferLength (bget buffer (i+1))
        get_minimum_token_number_loop buffer bufferLength (i + skip + 1) tokenNumber sizes gas
      else
        let isWhitespace := is_space (bget buffer i)
        let isOperator :=
          if isWhitespace = false && check_for_operator (bget buffer i) then
            if bget buffer i = '&' || is_correct_pointer buffer i bufferLength then false
            else if bget buffer i = '-' && is_digit (bget buffer (i+1)) then false
            else true
          else false
        if bget buffer i = '"' then
          let len := skip_string buffer bufferLength i tokenNumber
          get_minimum_token_number_loop buffer bufferLength (i + len + 1)
            (tokenNumber + 1) (sizes ++ [len + 2]) gas
        else if isOperator then
          let res := set_operator_size buffer bufferLength i
          get_minimum_token_number_loop buffer bufferLength (i + res.2 + 1)
            (tokenNumber + 1) (sizes ++ [res.1]) gas
        else if isWhitespace = false && isOperator = false then
          let res := add_identifiers buffer bufferLength i
          get_minimum_token_number_loop buffer bufferLength (i + res.2 + 1)
            (tokenNumber + 1) (sizes ++ [res.1]) gas
        else
          get_minimum_token_number_loop buffer bufferLength (i + 1) tokenNumber sizes gas
    else (tokenNumber, sizes)

/-- C `get_minimum_token_number` from `src/main/input.c` (the `comment`
counter is constant zero in the source, so the returned count is just the
token number).  Returns the token count and the recorded sizes. -/
def get_minimum_token_number (buffer : List Char) (bufferLength : Nat) : Nat × List Nat :=
  get_minimum_token_number_loop buffer bufferLength 0 0 [] (bufferLength + 1)

/-! ## Parse-tree builder (`src/src/parsetreeGenerator.c`) -/

/-- The token kinds referenced by the embedded fragment of the builder
(`TOKENTYPES`, declared in the repository's `Token.h`). -/
inductive TOKENTYPES where
  | IDENTIFIER | NUMBER_T | STRING_T | CHARACTER_ARRAY_T
  | OP_PLUS | OP_MINUS | OP_MULTIPLY | OP_DIVIDE | OP_MODULU
  | OP_EQUALS | OP_SEMICOLON | OP_COMMA | OP_COLON | OP_DOT
  | OP_CLASS_ACCESSOR | OP_CLASS_CREATOR
  | OP_RIGHT_BRACKET | OP_LEFT_BRACKET
  | OP_RIGHT_BRACE | OP_LEFT_BRACE
  | OP_RIGHT_EDGE_BRACKET | OP_LEFT_EDGE_BRACKET
  | OP_QUESTION_MARK
  | OP_PLUS_EQUALS | OP_MINUS_EQUALS | OP_MULTIPLY_EQUALS | OP_DIVIDE_EQUALS
  | OP_ADD_ONE | OP_SUBTRACT_ONE
  | OP_EQUALS_CONDITION | OP_NOT_EQUALS_CONDITION
  | OP_GREATER_CONDITION | OP_SMALLER_CONDITION
  | OP_GREATER_OR_EQUAL_CONDITION | OP_SMALLER_OR_EQUAL_CONDITION
  | KW_AND | KW_OR | KW_TRUE | KW_FALSE | KW_WITH | KW_EXTENDS
  | EOF_T
deriving DecidableEq, Repr

/-- A classified lexeme (`TOKEN`); source positions are omitted. -/
structure TOKEN where
  type : TOKENTYPES
  value : List Char
deriving DecidableEq, Repr

/-- The end-of-file sentinel terminating the token array. -/
def EOF_TOKEN : TOKEN := { type := TOKENTYPES.EOF_T, value := [] }

/-- Read the token array; out-of-range indices give the EOF sentinel
(the real array is terminated by one). -/
def tget (tokens : List TOKEN) (i : Nat) : TOKEN := tokens.getD i EOF_TOKEN

/-- The node kinds referenced by the embedded fragment
(`enum NodeType`, declared in the repository's `parsetree.h`). -/
inductive NodeType where
  | IDEN_NODE | NUMBER_NODE | FLOAT_NODE | STRING_NODE | CHAR_ARRAY_NODE
  | BOOL_NODE | NULL_NODE | POINTER_NODE | REFERENCE_NODE
  | PLUS_NODE | MINUS_NODE | MULTIPLY_NODE | DIVIDE_NODE | MODULO_NODE
  | EQUALS_CONDITION_NODE | NOT_EQUALS_CONDITION_NODE
  | SMALLER_CONDITION_NODE | GREATER_CONDITION_NODE
  | SMALLER_OR_EQUAL_CONDITION_NODE | GREATER_OR_EQUAL_CONDITION_NODE
  | THIS_NODE | ARRAY_NODE | CLASS_ACCESS_NODE | MEMBER_ACCESS_NODE
  | MEM_CLASS_ACC_NODE | AND_NODE | OR_NODE | FUNCTION_CALL_NODE
  | ARRAY_ACCESS_NODE | SIMPLE_INC_DEC_ASS_NODE
  | INCREMENT_ONE_NODE | DECREMENT_ONE_NODE | CONDITIONAL_ASSIGNMENT_NODE
  | VAR_TYPE_NODE | VAR_DIM_NODE | MODIFIER_NODE | PARAM_NODE | NULL_MARKER
  | VAR_NODE | CONST_NODE | CLASS_CONSTRUCTOR_NODE | RUNNABLE_NODE
  | BREAK_STMT_NODE | CONTINUE_STMT_NODE
deriving DecidableEq, Repr

/-- A parse-tree node (`struct Node`); `value`, discriminating `type`,
binary children and the `details` array (whose C slots may be NULL).
Source positions are omitted. -/
inductive Node where
  | mk (value : List Char) (type : NodeType)
       (leftNode rightNode : Option Node) (details : List (Option Node))

def Node.value : Node → List Char
  | .mk v _ _ _ _ => v

def Node.type : Node → NodeType
  | .mk _ t _ _ _ => t

def Node.leftNode : Node → Option Node
  | .mk _ _ l _ _ => l

def Node.rightNode : Node → Option Node
  | .mk _ _ _ r _ => r

def Node.details : Node → List (Option Node)
  | .mk _ _ _ _ d => d

def Node.detailsCount (n : Node) : Nat := n.details.length

def Node.withLeft : Node → Option Node → Node
  | .mk v t _ r d, l => .mk v t l r d

def Node.withRight : Node → Option Node → Node
  | .mk v t l _ d, r => .mk v t l r d

def Node.withType : Node → NodeType → Node
  | .mk v _ l r d, t => .mk v t l r d

def Node.withDetails : Node → List (Option Node) → Node
  | .mk v t l r _, d => .mk v t l r d

/-- C `PG_create_node` (source positions omitted). -/
def PG_create_node (value : List Char) (type : NodeType) : Node :=
  Node.mk value type none none []

/-- C `NodeReport`. -/
structure NodeReport where
  node : Option Node
  tokensToSkip : Nat

/-- C `PG_create_node_report`. -/
def PG_create_node_report (topNode : Option Node) (tokensToSkip : Nat) : NodeReport :=
  { node := topNode, tokensToSkip := tokensToSkip }

/-- C `PG_get_identifier_by_index` (copies the token text). -/
def PG_get_identifier_by_index (token : TOKEN) : List Char := token.value

/-- C `enum processDirection`. -/
inductive processDirection where
  | LEFT | RIGHT | STAY
deriving DecidableEq

/-- C `enum CONDITION_TYPE` (the two values used by the embedded fragment). -/
inductive CONDITION_TYPE where
  | NONE_CT | IGNORE_ALL
deriving DecidableEq

/-- C `PG_is_condition_operator`. -/
def PG_is_condition_operator (type : TOKENTYPES) : Bool :=
  match type with
  | .OP_EQUALS_CONDITION | .OP_GREATER_CONDITION | .OP_SMALLER_CONDITION
  | .OP_GREATER_OR_EQUAL_CONDITION | .OP_SMALLER_OR_EQUAL_CONDITION
  | .OP_NOT_EQUALS_CONDITION | .KW_AND | .KW_OR | .OP_QUESTION_MARK => true
  | _ => false

/-- C `PG_is_calculation_operator`. -/
def PG_is_calculation_operator (token : TOKEN) : Bool :=
  match token.type with
  | .OP_PLUS | .OP_MINUS | .OP_MULTIPLY | .OP_DIVIDE | .OP_MODULU => true
  | _ => false

/-- C `const TOKENTYPES operators[]` table. -/
def operators : List TOKENTYPES :=
  [.OP_PLUS, .OP_MINUS, .OP_MULTIPLY, .OP_DIVIDE, .OP_MODULU,
   .OP_LEFT_BRACKET, .OP_RIGHT_BRACKET, .OP_EQUALS, .OP_SEMICOLON,
   .OP_COMMA, .OP_RIGHT_BRACE, .OP_DOT, .OP_RIGHT_EDGE_BRACKET,
   .OP_LEFT_EDGE_BRACKET, .OP_COLON, .OP_PLUS_EQUALS, .OP_MINUS_EQUALS,
   .OP_MULTIPLY_EQUALS, .OP_DIVIDE_EQUALS, .OP_CLASS_ACCESSOR,
   .OP_ADD_ONE, .OP_SUBTRACT_ONE]

/-- C `PG_is_operator`: EOF counts as an operator; otherwise membership in
the `operators` table or a condition operator. -/
def PG_is_operator (token : TOKEN) : Bool :=
  if token.type = .EOF_T then true
  else operators.contains token.type || PG_is_condition_operator token.type

/-- Modelled from the spec: `is_primitive` (declared in the repository's
syntax-analysis module, defined outside src/) recognises the primitive-type
keyword tokens (`int`, `double`, `float`, `short`, `long`, `char`,
`boolean`, `String`, `void`).  None of those keyword token kinds belongs to
the fragment of `TOKENTYPES` modelled here, so the predicate is false on it. -/
def is_primitive (_type : TOKENTYPES) : Bool := false

/-- Modelled from the spec: `is_end_indicator` (defined outside src/) marks
tokens that terminate an expression: the operators and separators of §6 and
the statement/block delimiters, as well as the `and`/`or` connectives and
end of file.  Brackets and the two accessors are inspected by dedicated
branches before this predicate is consulted. -/
def is_end_indicator (token : TOKEN) : Bool :=
  match token.type with
  | .OP_PLUS | .OP_MINUS | .OP_MULTIPLY | .OP_DIVIDE | .OP_MODULU
  | .OP_EQUALS | .OP_SEMICOLON | .OP_COMMA | .OP_COLON
  | .OP_RIGHT_BRACE | .OP_LEFT_BRACE | .OP_QUESTION_MARK
  | .OP_PLUS_EQUALS | .OP_MINUS_EQUALS | .OP_MULTIPLY_EQUALS | .OP_DIVIDE_EQUALS
  | .OP_EQUALS_CONDITION | .OP_NOT_EQUALS_CONDITION
  | .OP_GREATER_CONDITION | .OP_SMALLER_CONDITION
  | .OP_GREATER_OR_EQUAL_CONDITION | .OP_SMALLER_OR_EQUAL_CONDITION
  | .KW_AND | .KW_OR | .EOF_T => true
  | _ => false

/-- Trailing scan of C `PG_get_node_type_by_value`: look for a `->` or `[`
inside the value (`value[i]` and `value[i+1]`, the latter read against the
NUL terminator at the end). -/
def PG_scan_value_for_access : List Char → NodeType
  | [] => NodeType.IDEN_NODE
  | c :: rest =>
    if c = '-' && rest.headD '\x00' = '>' then NodeType.CLASS_ACCESS_NODE
    else if c = '[' then NodeType.ARRAY_NODE
    else PG_scan_value_for_access rest

/-- C `PG_get_node_type_by_value`. -/
def PG_get_node_type_by_value (value : List Char) : NodeType :=
  if value.headD '\x00' = '"' then NodeType.STRING_NODE
  else if value.headD '\x00' = '\'' then NodeType.CHAR_ARRAY_NODE
  else if is_digit (value.headD '\x00') then
    if value.contains '.' then NodeType.FLOAT_NODE else NodeType.NUMBER_NODE
  else if value.headD '\x00' = '*' then
    if value.getD 1 '\x00' = '\x00' then NodeType.MULTIPLY_NODE
    else NodeType.POINTER_NODE
  else if value.headD '\x00' = '&' then NodeType.REFERENCE_NODE
  else if value.headD '\x00' = '+' then NodeType.PLUS_NODE
  else if value.headD '\x00' = '-' then NodeType.MINUS_NODE
  else if value.headD '\x00' = '/' then NodeType.DIVIDE_NODE
  else if value.headD '\x00' = '%' then NodeType.MODULO_NODE
  else if value = cs "true" || value = cs "false" then NodeType.BOOL_NODE
  else if value = cs "null" then NodeType.NULL_NODE
  else if value = cs "==" then NodeType.EQUALS_CONDITION_NODE
  else if value = cs "!=" then NodeType.NOT_EQUALS_CONDITION_NODE
  else if value = cs "<=" then NodeType.SMALLER_OR_EQUAL_CONDITION_NODE
  else if value = cs ">=" then NodeType.GREATER_OR_EQUAL_CONDITION_NODE
  else if value = cs "<" then NodeType.SMALLER_CONDITION_NODE
  else if value = cs ">" then NodeType.GREATER_CONDITION_NODE
  else if value = cs "this" then NodeType.THIS_NODE
  else PG_scan_value_for_access value

/-- Loop of C `PG_contains_logical_operator`. -/
def PG_contains_logical_operator_loop (tokens : List TOKEN) : Nat → Nat → Bool
  | _, 0 => false
  | i, gas+1 =>
    if i < tokens.length then
      if (tget tokens i).type = .KW_AND || (tget tokens i).type = .KW_OR then true
      else if (tget tokens i).type = .OP_RIGHT_BRACE
          || (tget tokens i).type = .OP_SEMICOLON
          || (tget tokens i).type = .OP_QUESTION_MARK then false
      else PG_contains_logical_operator_loop tokens (i+1) gas
    else false

/-- C `PG_contains_logical_operator`. -/
def PG_contains_logical_operator (tokens : List TOKEN) (startPos : Nat) : Bool :=
  PG_contains_logical_operator_loop tokens startPos (tokens.length + 1)

/-- Loop of C `PG_get_condition_iden_length` (`openBrackets` is a signed
counter). -/
def PG_get_condition_iden_length_loop (tokens : List TOKEN) (startPos : Nat) :
    Nat → Int → Nat → Nat
  | counter, _, 0 => counter
  | counter, openBrackets, gas+1 =>
    if startPos + counter < tokens.length then
      let t := (tget tokens (startPos + counter)).type
      if PG_is_condition_operator t then counter
      else if t = .OP_SEMICOLON then counter
      else if t = .OP_LEFT_BRACKET then
        if openBrackets - 1 < 0 then counter
        else PG_get_condition_iden_length_loop tokens startPos (counter+1) (openBrackets-1) gas
      else if t = .OP_RIGHT_BRACKET then
        PG_get_condition_iden_length_loop tokens startPos (counter+1) (openBrackets+1) gas
      else PG_get_condition_iden_length_loop tokens startPos (counter+1) openBrackets gas
    else counter

/-- C `PG_get_condition_iden_length`. -/
def PG_get_condition_iden_length (tokens : List TOKEN) (startPos : Nat) : Nat :=
  PG_get_condition_iden_length_loop tokens startPos 0 0 (tokens.length + 1)

/-- Loop of C `PG_forward_till_plus_or_minus`. -/
def PG_forward_till_plus_or_minus_loop (tokens : List TOKEN) (startPos : Nat) :
    Nat → Int → Nat → Nat
  | skip, _, 0 => skip
  | skip, openBrackets, gas+1 =>
    if startPos + skip < tokens.length then
      let t := (tget tokens (startPos + skip)).type
      if t = .OP_PLUS || t = .OP_MINUS then
        if openBrackets ≠ 0 then
          PG_forward_till_plus_or_minus_loop tokens startPos (skip+1) openBrackets gas
        else skip
      else if t = .OP_RIGHT_BRACKET then
        PG_forward_till_plus_or_minus_loop tokens startPos (skip+1) (openBrackets+1) gas
      else if t = .OP_LEFT_BRACKET then
        PG_forward_till_plus_or_minus_loop tokens startPos (skip+1) (openBrackets-1) gas
      else if t = .OP_SEMICOLON || t = .OP_RIGHT_BRACE then skip
      else PG_forward_till_plus_or_minus_loop tokens startPos (skip+1) openBrackets gas
    else skip

/-- C `PG_forward_till_plus_or_minus`. -/
def PG_forward_till_plus_or_minus (tokens : List TOKEN) (startPos : Nat) : Nat :=
  PG_forward_till_plus_or_minus_loop tokens startPos 0 0 (tokens.length + 1)

/-- Loop of C `PG_is_next_operator_multiply_divide_or_modulo`. -/
def PG_is_next_operator_mdm_loop (tokens : List TOKEN) (startPos : Nat) :
    Nat → Int → Nat → Bool
  | _, _, 0 => false
  | jumper, openBrackets, gas+1 =>
    if startPos + jumper < tokens.length then
      match (tget tokens (startPos + jumper)).type with
      | .OP_PLUS | .OP_MINUS | .OP_COMMA =>
        if openBrackets ≠ 0 then
          PG_is_next_operator_mdm_loop tokens startPos (jumper+1) openBrackets gas
        else false
      | .OP_MULTIPLY | .OP_DIVIDE | .OP_MODULU =>
        if openBrackets ≠ 0 then
          PG_is_next_operator_mdm_loop tokens startPos (jumper+1) openBrackets gas
        else true
      | .OP_LEFT_BRACKET =>
        PG_is_next_operator_mdm_loop tokens startPos (jumper+1) (openBrackets-1) gas
      | .OP_RIGHT_BRACKET =>
        PG_is_next_operator_mdm_loop tokens startPos (jumper+1) (openBrackets+1) gas
      | _ => PG_is_next_operator_mdm_loop tokens startPos (jumper+1) openBrackets gas
    else false

/-- C `PG_is_next_operator_multiply_divide_or_modulo`. -/
def PG_is_next_operator_multiply_divide_or_modulo (tokens : List TOKEN) (startPos : Nat) : Bool :=
  PG_is_next_operator_mdm_loop tokens startPos 0 0 (tokens.length + 1)

/-- Loop of C `PG_determine_bounds_for_capsulated_term`; the C guard is the
EOF sentinel, which out-of-range reads also produce here. -/
def PG_determine_bounds_capsulated_loop (tokens : List TOKEN) (startPos : Nat) :
    Nat → Int → Nat → Nat
  | bounds, _, 0 => bounds
  | bounds, openBrackets, gas+1 =>
    if (tget tokens (startPos + bounds)).type = .EOF_T then bounds
    else
      let t := (tget tokens (startPos + bounds)).type
      let ob := if t = .OP_LEFT_BRACKET then openBrackets - 1
                else if t = .OP_RIGHT_BRACKET then openBrackets + 1
                else openBrackets
      if ob = 0 then bounds
      else PG_determine_bounds_capsulated_loop tokens startPos (bounds+1) ob gas

/-- C `PG_determine_bounds_for_capsulated_term`. -/
def PG_determine_bounds_for_capsulated_term (tokens : List TOKEN) (startPos : Nat) : Nat :=
  PG_determine_bounds_capsulated_loop tokens startPos 0 0 (tokens.length + 1)

/-- Loop of C `PG_predict_member_access`. -/
def PG_predict_member_access_loop (tokens : List TOKEN) (type_ : CONDITION_TYPE) :
    Nat → Int → Nat → Bool
  | _, _, 0 => false
  | i, openEdgeBrackets, gas+1 =>
    if i < tokens.length then
      let tok := tget tokens i
      if PG_is_calculation_operator tok && openEdgeBrackets = 0 then false
      else if tok.type = .OP_SEMICOLON then true
      else if PG_is_condition_operator tok.type then true
      else if tok.type = .OP_COMMA then false
      else if is_primitive tok.type then false
      else
        let oeb := if tok.type = .OP_LEFT_EDGE_BRACKET then openEdgeBrackets - 1
                   else if tok.type = .OP_RIGHT_EDGE_BRACKET then openEdgeBrackets + 1
                   else openEdgeBrackets
        if type_ = .IGNORE_ALL
            && (tok.type = .OP_LEFT_BRACKET || PG_is_calculation_operator tok) then true
        else PG_predict_member_access_loop tokens type_ (i+1) oeb gas
    else false

/-- C `PG_predict_member_access`. -/
def PG_predict_member_access (tokens : List TOKEN) (startPos : Nat)
    (type_ : CONDITION_TYPE) : Bool :=
  PG_predict_member_access_loop tokens type_ startPos 0 (tokens.length + 1)

/-- Loop of C `PG_is_member_access`. -/
def PG_is_member_access_loop (tokens : List TOKEN) (startPos : Nat) :
    Nat → Int → Int → Nat → Bool
  | _, _, _, 0 => false
  | skip, openBrackets, openEdgeBrackets, gas+1 =>
    if startPos + skip < tokens.length then
      let t := (tget tokens (startPos + skip)).type
      if t = .OP_LEFT_BRACKET then
        PG_is_member_access_loop tokens startPos (skip+1) (openBrackets-1) openEdgeBrackets gas
      else if t = .OP_RIGHT_BRACKET then
        PG_is_member_access_loop tokens startPos (skip+1) (openBrackets+1) openEdgeBrackets gas
      else if t = .OP_LEFT_EDGE_BRACKET then
        PG_is_member_access_loop tokens startPos (skip+1) openBrackets (openEdgeBrackets-1) gas
      else if t = .OP_RIGHT_EDGE_BRACKET then
        PG_is_member_access_loop tokens startPos (skip+1) openBrackets (openEdgeBrackets+1) gas
      else if t = .OP_DOT || t = .OP_CLASS_ACCESSOR then
        if openBrackets = 0 && openEdgeBrackets = 0 then true
        else PG_is_member_access_loop tokens startPos (skip+1) openBrackets openEdgeBrackets gas
      else if is_end_indicator (tget tokens (startPos + skip)) then false
      else PG_is_member_access_loop tokens startPos (skip+1) openBrackets openEdgeBrackets gas
    else false

/-- C `PG_is_member_access`. -/
def PG_is_member_access (tokens : List TOKEN) (startPos : Nat) : Bool :=
  PG_is_member_access_loop tokens startPos 0 0 0 (tokens.length + 1)

/-- C `PG_handle_member_access_brackets`: returns the status (-1 to break,
0 otherwise) together with the updated bracket counters. -/
def PG_handle_member_access_brackets (currentToken : TOKEN)
    (openBrackets openEdgeBrackets : Int) : Int × Int × Int :=
  match currentToken.type with
  | .OP_LEFT_BRACKET =>
    if openBrackets - 1 < 0 then (-1, openBrackets - 1, openEdgeBrackets)
    else (0, openBrackets - 1, openEdgeBrackets)
  | .OP_RIGHT_BRACKET =>
    if openBrackets + 1 < 0 then (-1, openBrackets + 1, openEdgeBrackets)
    else (0, openBrackets + 1, openEdgeBrackets)
  | .OP_LEFT_EDGE_BRACKET =>
    if openEdgeBrackets - 1 < 0 then (-1, openBrackets, openEdgeBrackets - 1)
    else (0, openBrackets, openEdgeBrackets - 1)
  | .OP_RIGHT_EDGE_BRACKET =>
    if openEdgeBrackets + 1 < 0 then (-1, openBrackets, openEdgeBrackets + 1)
    else (0, openBrackets, openEdgeBrackets + 1)
  | .OP_SEMICOLON => (-1, openBrackets, openEdgeBrackets)
  | _ => (0, openBrackets, openEdgeBrackets)

/-- Backward loop of C `PG_back_shift_array_access`.  The argument is the C
index `i`; `i = 0` hits the early `return 0`.  In the `[` case the C falls
through to `default: continue` when the inner condition fails. -/
def PG_back_shift_array_access_loop (tokens : List TOKEN) (startPos : Nat) : Nat → Nat
  | 0 => 0
  | i+1 =>
    let t := (tget tokens (i+1)).type
    if t = .OP_SEMICOLON || t = .OP_EQUALS || t = .OP_PLUS_EQUALS
        || t = .OP_MINUS_EQUALS || t = .OP_MULTIPLY_EQUALS || t = .OP_DIVIDE_EQUALS then 0
    else if t = .OP_RIGHT_EDGE_BRACKET
        && ((tget tokens i).type = .OP_LEFT_BRACKET
            || (tget tokens i).type = .IDENTIFIER) then
      startPos - (i + 2)
    else PG_back_shift_array_access_loop tokens startPos i

/-- C `PG_back_shift_array_access`. -/
def PG_back_shift_array_access (tokens : List TOKEN) (startPos : Nat) : Nat :=
  PG_back_shift_array_access_loop tokens startPos startPos

/-- Backward loop of C `PG_propagate_back_till_iden`: bracket counters are
updated first, then the identifier test uses the updated counter. -/
def PG_propagate_back_till_iden_loop (tokens : List TOKEN) (startPos : Nat) :
    Nat → Int → Nat
  | i, openBrackets =>
    let t := (tget tokens i).type
    let ob := if t = .OP_LEFT_BRACKET then openBrackets - 1
              else if t = .OP_RIGHT_BRACKET then openBrackets + 1
              else openBrackets
    if t = .IDENTIFIER && ob = 0 then startPos - i
    else match i with
      | 0 => 0
      | j+1 => PG_propagate_back_till_iden_loop tokens startPos j ob

/-- C `PG_propagate_back_till_iden`. -/
def PG_propagate_back_till_iden (tokens : List TOKEN) (startPos : Nat) : Nat :=
  PG_propagate_back_till_iden_loop tokens startPos startPos 0

/-- C `PG_execute_direct_check_for_function_call`. -/
def PG_execute_direct_check_for_function_call (tokens : List TOKEN) (startPos : Nat) : Bool :=
  if (tget tokens startPos).type = .OP_RIGHT_BRACKET
      && ((tget tokens (startPos + 1)).type = .OP_LEFT_BRACKET
          || (tget tokens (startPos - 1)).type = .IDENTIFIER) then true
  else if (tget tokens startPos).type = .OP_LEFT_BRACKET
      && (tget tokens (startPos - 1)).type = .OP_RIGHT_BRACKET then true
  else if (tget tokens startPos).type = .IDENTIFIER
      && (tget tokens (startPos + 1)).type = .OP_RIGHT_BRACKET then true
  else false

/-- Loop of C `PG_handle_RBracket_function_call`. -/
def PG_handle_RBracket_function_call_loop (tokens : List TOKEN) (startPos : Nat) :
    Nat → Int → Nat → Nat
  | jumper, _, 0 => jumper
  | jumper, openBrackets, gas+1 =>
    if (tget tokens (startPos + jumper)).type = .EOF_T then jumper
    else if (tget tokens (startPos + jumper)).type = .OP_LEFT_BRACKET then
      if openBrackets - 1 = 0 && (tget tokens (startPos - 1)).type = .IDENTIFIER then jumper
      else PG_handle_RBracket_function_call_loop tokens startPos (jumper+1) (openBrackets-1) gas
    else if (tget tokens (startPos + jumper)).type = .OP_RIGHT_BRACKET then
      PG_handle_RBracket_function_call_loop tokens startPos (jumper+1) (openBrackets+1) gas
    else PG_handle_RBracket_function_call_loop tokens startPos (jumper+1) openBrackets gas

/-- C `PG_handle_RBracket_function_call`. -/
def PG_handle_RBracket_function_call (tokens : List TOKEN) (startPos : Nat) : Nat :=
  PG_handle_RBracket_function_call_loop tokens startPos 0 0 (tokens.length + 1)

/-- Loop of C `PG_handle_LBracket_function_call` (backward scan; the guard is
`startPos - jumper > 0`). -/
def PG_handle_LBracket_function_call_loop (tokens : List TOKEN) (startPos : Nat) :
    Nat → Int → Int → Nat → Nat
  | jumper, _, _, 0 => jumper
  | jumper, openBrackets, openEdgeBrackets, gas+1 =>
    if jumper < startPos then
      let t := (tget tokens (startPos - jumper)).type
      let oeb := if t = .OP_LEFT_EDGE_BRACKET then openEdgeBrackets - 1
                 else if t = .OP_RIGHT_EDGE_BRACKET then openEdgeBrackets + 1
                 else openEdgeBrackets
      if oeb ≠ 0 then
        PG_handle_LBracket_function_call_loop tokens startPos (jumper+1) openBrackets oeb gas
      else if t = .OP_LEFT_BRACKET then
        PG_handle_LBracket_function_call_loop tokens startPos (jumper+1) (openBrackets-1) oeb gas
      else if t = .OP_RIGHT_BRACKET then
        if openBrackets + 1 = 0
            && (tget tokens (startPos - jumper - 1)).type = .IDENTIFIER then jumper
        else PG_handle_LBracket_function_call_loop tokens startPos (jumper+1) (openBrackets+1) oeb gas
      else if t = .OP_EQUALS || t = .OP_SEMICOLON then 0
      else PG_handle_LBracket_function_call_loop tokens startPos (jumper+1) openBrackets oeb gas
    else jumper

/-- C `PG_handle_LBracket_function_call`. -/
def PG_handle_LBracket_function_call (tokens : List TOKEN) (startPos : Nat) : Nat :=
  PG_handle_LBracket_function_call_loop tokens startPos 0 0 0 (tokens.length + 1)

/-- C `PG_is_function_call`.  The C returns an `int` (the bracket handlers
return a jump distance); the only call site compares the result against
`true` = 1, so the numeric value is preserved here. -/
def PG_is_function_call (tokens : List TOKEN) (startPos : Nat) : Nat :=
  if PG_execute_direct_check_for_function_call tokens startPos then 1
  else if (tget tokens startPos).type = .OP_LEFT_BRACKET
      || (tget tokens startPos).type = .OP_LEFT_EDGE_BRACKET then
    PG_handle_LBracket_function_call tokens startPos
  else if (tget tokens startPos).type = .OP_RIGHT_BRACKET then
    PG_handle_RBracket_function_call tokens startPos
  else 0

/-- Loop of C `PG_predict_increment_or_decrement_assignment`. -/
def PG_predict_incr_decr_loop (tokens : List TOKEN) : Nat → Int → Int → Nat → Bool
  | _, _, _, 0 => false
  | i, openBrackets, openEdgeBrackets, gas+1 =>
    if i < tokens.length then
      let t := (tget tokens i).type
      let ob := if t = .OP_LEFT_BRACKET then openBrackets - 1
                else if t = .OP_RIGHT_BRACKET then openBrackets + 1
                else openBrackets
      let oeb := if t = .OP_LEFT_EDGE_BRACKET then openEdgeBrackets - 1
                 else if t = .OP_RIGHT_EDGE_BRACKET then openEdgeBrackets + 1
                 else openEdgeBrackets
      if ob ≠ 0 || oeb ≠ 0 then
        PG_predict_incr_decr_loop tokens (i+1) ob oeb gas
      else if t = .OP_SEMICOLON then false
      else if t ≠ .OP_ADD_ONE && t ≠ .OP_SUBTRACT_ONE then
        PG_predict_incr_decr_loop tokens (i+1) ob oeb gas
      else if (tget tokens (i-1)).type = .IDENTIFIER
          || (tget tokens (i+1)).type = .IDENTIFIER then true
      else false
    else false

/-- C `PG_predict_increment_or_decrement_assignment`. -/
def PG_predict_increment_or_decrement_assignment (tokens : List TOKEN) (startPos : Nat) : Bool :=
  PG_predict_incr_decr_loop tokens startPos 0 0 (tokens.length + 1)

/-- Loop of C `PG_get_term_bounds`.  The C returns -1 if no delimiter is
found before the end of the array; that value is returned as `none`
(callers then pass it as a `size_t` bound, never reached on the modelled
inputs). -/
def PG_get_term_bounds_loop (tokens : List TOKEN) (startPos : Nat) :
    Nat → Int → Int → Nat → Option Nat
  | _, _, _, 0 => none
  | i, openBrackets, openEdgeBrackets, gas+1 =>
    if i < tokens.length then
      match (tget tokens i).type with
      | .OP_LEFT_BRACKET =>
        if openBrackets - 1 < 0
            && PG_is_calculation_operator (tget tokens (i+1)) = false then some (i - startPos)
        else PG_get_term_bounds_loop tokens startPos (i+1) (openBrackets-1) openEdgeBrackets gas
      | .OP_RIGHT_BRACKET =>
        PG_get_term_bounds_loop tokens startPos (i+1) (openBrackets+1) openEdgeBrackets gas
      | .OP_LEFT_EDGE_BRACKET =>
        if openEdgeBrackets - 1 < 0 then some (i - startPos)
        else PG_get_term_bounds_loop tokens startPos (i+1) openBrackets (openEdgeBrackets-1) gas
      | .OP_RIGHT_EDGE_BRACKET =>
        PG_get_term_bounds_loop tokens startPos (i+1) openBrackets (openEdgeBrackets+1) gas
      | .OP_SEMICOLON | .OP_EQUALS | .OP_PLUS_EQUALS | .OP_MINUS_EQUALS
      | .OP_MULTIPLY_EQUALS | .OP_DIVIDE_EQUALS | .OP_LEFT_BRACE =>
        some (i - startPos)
      | _ => PG_get_term_bounds_loop tokens startPos (i+1) openBrackets openEdgeBrackets gas
    else none

/-- C `PG_get_term_bounds` (`none` models the C -1 "not found" result). -/
def PG_get_term_bounds (tokens : List TOKEN) (startPos : Nat) : Option Nat :=
  PG_get_term_bounds_loop tokens startPos startPos 0 0 (tokens.length + 1)

/-- Loop of C `PG_get_cond_assignment_bounds`. -/
def PG_get_cond_assignment_bounds_loop (tokens : List TOKEN) (startPos : Nat) :
    Nat → Nat → Nat
  | skip, 0 => skip
  | skip, gas+1 =>
    if startPos + skip < tokens.length then
      if (tget tokens (startPos + skip)).type = .OP_SEMICOLON
          || (tget tokens (startPos + skip)).type = .OP_COLON then skip
      else PG_get_cond_assignment_bounds_loop tokens startPos (skip+1) gas
    else skip

/-- C `PG_get_cond_assignment_bounds`. -/
def PG_get_cond_assignment_bounds (tokens : List TOKEN) (startPos : Nat) : Nat :=
  PG_get_cond_assignment_bounds_loop tokens startPos 0 (tokens.length + 1)

/-- C `PG_predict_primitive_param_count` (`none` models the C -1). -/
def PG_predict_primitive_param_count (tokens : List TOKEN) (startPos : Nat) : Option Nat :=
  if (tget tokens startPos).type = .OP_RIGHT_BRACKET
      && (tget tokens (startPos + 1)).type = .OP_LEFT_BRACKET then some 0
  else if (tget tokens startPos).type = .OP_RIGHT_BRACKET
      && ((tget tokens (startPos + 1)).type = .IDENTIFIER
          || (tget tokens (startPos + 1)).type = .NUMBER_T)
      && (tget tokens (startPos + 2)).type = .OP_LEFT_BRACKET then some 1
  else none

/-- Loop of C `PG_predict_argument_count`. -/
def PG_predict_argument_count_loop (tokens : List TOKEN) : Nat → Nat → Int → Nat → Nat
  | _, count, _, 0 => count
  | i, count, openBrackets, gas+1 =>
    if i < tokens.length then
      let t := (tget tokens i).type
      if t = .OP_COMMA then
        PG_predict_argument_count_loop tokens (i+1)
          (count + (if count = 0 then 2 else 1)) openBrackets gas
      else if t = .OP_RIGHT_BRACKET then
        PG_predict_argument_count_loop tokens (i+1) count (openBrackets+1) gas
      else if t = .OP_LEFT_BRACKET then
        let count2 := if (tget tokens (i-1)).type ≠ .OP_RIGHT_BRACKET && count = 0 then
                        count + 1
                      else count
        if openBrackets - 1 ≤ 0 then count2
        else PG_predict_argument_count_loop tokens (i+1) count2 (openBrackets-1) gas
      else if t = .OP_RIGHT_BRACE || t = .OP_CLASS_CREATOR then count
      else PG_predict_argument_count_loop tokens (i+1) count openBrackets gas
    else count

/-- C `PG_predict_argument_count`. -/
def PG_predict_argument_count (tokens : List TOKEN) (startPos : Nat)
    (withPredefinedBrackets : Int) : Nat :=
  match PG_predict_primitive_param_count tokens startPos with
  | some n => n
  | none => PG_predict_argument_count_loop tokens startPos 0 withPredefinedBrackets
      (tokens.length + 1)

/-- Loop of C `PG_get_bound_of_single_param`. -/
def PG_get_bound_of_single_param_loop (tokens : List TOKEN) (startPos : Nat) :
    Nat → Nat → Int → Nat → Nat
  | _, bound, _, 0 => bound
  | i, bound, openBrackets, gas+1 =>
    if i < tokens.length then
      let t := (tget tokens i).type
      if (t = .OP_COMMA || t = .OP_CLASS_CREATOR || t = .OP_COLON)
          && openBrackets ≤ 0 then bound
      else if t = .OP_RIGHT_BRACKET then
        PG_get_bound_of_single_param_loop tokens startPos (i+1) (bound+1) (openBrackets+1) gas
      else if t = .OP_LEFT_BRACKET then
        if openBrackets - 1 < 0 then bound
        else PG_get_bound_of_single_param_loop tokens startPos (i+1) (bound+1) (openBrackets-1) gas
      else PG_get_bound_of_single_param_loop tokens startPos (i+1) (bound+1) openBrackets gas
    else bound

/-- C `PG_get_bound_of_single_param`. -/
def PG_get_bound_of_single_param (tokens : List TOKEN) (startPos : Nat) : Nat :=
  PG_get_bound_of_single_param_loop tokens startPos startPos 0 0 (tokens.length + 1)

/-- Loop of C `PG_count_varType_dimensions`. -/
def PG_count_varType_dimensions_loop (tokens : List TOKEN) (startPos : Nat) :
    Nat → Nat → Nat → Nat
  | _, dimensions, 0 => dimensions
  | skip, dimensions, gas+1 =>
    if (tget tokens (startPos + skip)).type = .OP_RIGHT_EDGE_BRACKET
        && (tget tokens (startPos + skip + 1)).type = .OP_LEFT_EDGE_BRACKET
        && startPos + skip < tokens.length then
      PG_count_varType_dimensions_loop tokens startPos (skip+2) (dimensions+1) gas
    else dimensions

/-- C `PG_count_varType_dimensions`. -/
def PG_count_varType_dimensions (tokens : List TOKEN) (startPos : Nat) : Nat :=
  PG_count_varType_dimensions_loop tokens startPos 0 0 (tokens.length + 1)

/-- C `PG_add_varType_definition`: builds the `VAR_TYPE_NODE` (with the
dimension count rendered in decimal on its `leftNode`) and stores it into
`parentNode->details[0]`.  Returns the token skip and the updated parent. -/
def PG_add_varType_definition (tokens : List TOKEN) (startPos : Nat)
    (parentNode : Node) : Nat × Node :=
  let dimensions := PG_count_varType_dimensions tokens (startPos + 1)
  let skip := 1 + dimensions * 2
  let nameTok := tget tokens startPos
  let nameOfType := PG_create_node nameTok.value .VAR_TYPE_NODE
  let nameOfType2 :=
    if dimensions > 0 then
      nameOfType.withLeft (some (PG_create_node (Nat.toDigits 10 dimensions) .VAR_DIM_NODE))
    else nameOfType
  let details2 := match parentNode.details with
    | [] => [some nameOfType2]
    | _ :: rest => some nameOfType2 :: rest
  (skip, parentNode.withDetails details2)

/-- Modelled from the spec: `predict_is_conditional_assignment_type`
(declared against the syntax-analysis module, defined outside src/)
predicts the conditional-value form of §4.2.4 (`?` before the value):
a `?` at top bracket depth before the terminating `;`. -/
def predict_is_conditional_assignment_type_loop (tokens : List TOKEN) (maxLength : Nat) :
    Nat → Int → Nat → Bool
  | _, _, 0 => false
  | i, openBrackets, gas+1 =>
    if i < maxLength then
      let t := (tget tokens i).type
      if t = .OP_QUESTION_MARK && openBrackets = 0 then true
      else if t = .OP_SEMICOLON then false
      else
        let ob := if t = .OP_RIGHT_BRACKET then openBrackets + 1
                  else if t = .OP_LEFT_BRACKET then openBrackets - 1
                  else openBrackets
        predict_is_conditional_assignment_type_loop tokens maxLength (i+1) ob gas
    else false

/-- Modelled from the spec: see the loop above. -/
def predict_is_conditional_assignment_type (tokens : List TOKEN)
    (startPos maxLength : Nat) : Bool :=
  predict_is_conditional_assignment_type_loop tokens maxLength startPos 0 (tokens.length + 1)

/-- Right-nested accessor chain as produced by the pointer writes
`cache->rightNode = tempNode` in `PG_create_member_access_tree`: each list
element is the accessor's `(value, type, leftNode)`; the last node's
`rightNode` stays NULL. -/
def PG_build_access_chain : List (List Char × NodeType × Option Node) → Option Node
  | [] => none
  | (v, t, l) :: rest => some (Node.mk v t l (PG_build_access_chain rest) [])

/-- Right-nested `ARR_ACC` chain as produced by the pointer writes
`prevDimNode->rightNode = arrAccNode` in `PG_create_array_access_tree`. -/
def PG_build_arr_acc_chain : List (Option Node) → Option Node
  | [] => none
  | l :: rest => some (Node.mk (cs "ARR_ACC") .ARRAY_ACCESS_NODE l (PG_build_arr_acc_chain rest) [])

mutual

/-- C `PG_create_simple_term_node`: precedence-aware builder for arithmetic
terms. -/
def PG_create_simple_term_node (gas : Nat) (tokens : List TOKEN)
    (startPos boundaries : Nat) : NodeReport :=
  match gas with
  | 0 => PG_create_node_report none 0
  | gas+1 =>
    let isCalc := !(PG_predict_member_access tokens startPos .NONE_CT || boundaries = 1)
    let cache :=
      if isCalc then
        PG_simple_term_loop gas tokens (startPos + boundaries) startPos none none
      else none
    match cache with
    | some c => PG_create_node_report (some c) boundaries
    | none =>
      let useOptionalTyping := !(boundaries < 3)
      let assignRep := PG_assign_processed_node_to_node gas tokens startPos useOptionalTyping
      PG_create_node_report assignRep.node boundaries
termination_by structural gas

/-- Scanning loop of C `PG_create_simple_term_node`; `lastIdenPos = none`
models the C `UNINITIALZED` (-1 cast to `size_t`, an out-of-range index),
rendered as an out-of-range read when used. -/
def PG_simple_term_loop (gas : Nat) (tokens : List TOKEN) (length i : Nat)
    (cache : Option Node) (lastIdenPos : Option Nat) : Option Node :=
  match gas with
  | 0 => cache
  | gas+1 =>
    if i < length then
      let currentToken := tget tokens i
      if currentToken.type = .EOF_T then cache
      else
        match currentToken.type with
        | .OP_RIGHT_BRACKET =>
          let bounds := PG_determine_bounds_for_capsulated_term tokens i
          let rep := PG_create_simple_term_node gas tokens (i+1) bounds
          let cache2 := match cache with
            | none => rep.node
            | some c => some (c.withRight rep.node)
          PG_simple_term_loop gas tokens length (i + rep.tokensToSkip + 1) cache2 lastIdenPos
        | .OP_PLUS | .OP_MINUS =>
          let node := PG_create_node currentToken.value
              (PG_get_node_type_by_value currentToken.value)
          let left := match cache with
            | none => (PG_create_member_access_tree gas tokens
                (lastIdenPos.getD tokens.length) true).node
            | some c => some c
          let rRep :=
            if PG_is_next_operator_multiply_divide_or_modulo tokens (i+1) = false then
              PG_assign_processed_node_to_node gas tokens (i+1) true
            else
              let bounds := PG_forward_till_plus_or_minus tokens (i+1)
              PG_create_simple_term_node gas tokens (i+1) bounds
          let node2 := (node.withLeft left).withRight rRep.node
          PG_simple_term_loop gas tokens length (i + rRep.tokensToSkip + 1) (some node2) none
        | .OP_DIVIDE | .OP_MULTIPLY | .OP_MODULU =>
          let node := PG_create_node currentToken.value
              (PG_get_node_type_by_value currentToken.value)
          let left := match cache with
            | none => (PG_assign_processed_node_to_node gas tokens
                (lastIdenPos.getD tokens.length) true).node
            | some c => some c
          let rRep := PG_assign_processed_node_to_node gas tokens (i+1) true
          let node2 := (node.withLeft left).withRight rRep.node
          PG_simple_term_loop gas tokens length (i + rRep.tokensToSkip + 1) (some node2) none
        | _ =>
          let lip := match lastIdenPos with
            | none => some i
            | some p => some p
          PG_simple_term_loop gas tokens length (i+1) cache lip
    else cache
termination_by structural gas

/-- C `PG_assign_processed_node_to_node`. -/
def PG_assign_processed_node_to_node (gas : Nat) (tokens : List TOKEN)
    (startPos : Nat) (useOptionalTyping : Bool) : NodeReport :=
  match gas with
  | 0 => PG_create_node_report none 0
  | gas+1 =>
    let startTok := tget tokens startPos
    if startTok.type = .OP_RIGHT_BRACKET then
      let bounds := PG_determine_bounds_for_capsulated_term tokens startPos
      PG_create_simple_term_node gas tokens startPos (bounds + 1)
    else if startTok.type = .STRING_T || startTok.type = .CHARACTER_ARRAY_T then
      PG_create_node_report (some (PG_create_node startTok.value .STRING_NODE)) 2
    else if startTok.type = .KW_TRUE || startTok.type = .KW_FALSE then
      PG_create_node_report (some (PG_create_node startTok.value .BOOL_NODE)) 1
    else if PG_predict_increment_or_decrement_assignment tokens startPos then
      PG_create_increment_decrement_tree gas tokens startPos
    else
      PG_create_member_access_tree gas tokens startPos useOptionalTyping
termination_by structural gas

/-- C `PG_create_member_access_tree`. -/
def PG_create_member_access_tree (gas : Nat) (tokens : List TOKEN)
    (startPos : Nat) (useOptionalTyping : Bool) : NodeReport :=
  match gas with
  | 0 => PG_create_node_report none 0
  | gas+1 =>
    let isMemAcc := PG_is_member_access tokens startPos
    let st :=
      if isMemAcc then PG_member_access_loop gas tokens startPos useOptionalTyping 0 [] 0 0
      else ([], 0)
    match st.1 with
    | [] =>
      let rVal := PG_get_member_access_side_node_tree gas tokens startPos .STAY useOptionalTyping
      PG_create_node_report rVal.node rVal.tokensToSkip
    | (_, _, l) :: rest =>
      -- the first accessor node is retyped to the MEM_CLASS_ACC root
      PG_create_node_report
        (some (Node.mk (cs "MEMCLASSACC") .MEM_CLASS_ACC_NODE l (PG_build_access_chain rest) []))
        st.2
termination_by structural gas

/-- Scanning loop of C `PG_create_member_access_tree`; the accessor nodes
written through the `cache` pointer are accumulated in order. -/
def PG_member_access_loop (gas : Nat) (tokens : List TOKEN) (startPos : Nat)
    (useOptionalTyping : Bool) (skip : Nat)
    (accs : List (List Char × NodeType × Option Node))
    (openBrackets openEdgeBrackets : Int) :
    List (List Char × NodeType × Option Node) × Nat :=
  match gas with
  | 0 => (accs, skip)
  | gas+1 =>
    if startPos + skip < tokens.length then
      let currentToken := tget tokens (startPos + skip)
      if useOptionalTyping = false && currentToken.type = .OP_COLON then (accs, skip)
      else if currentToken.type = .OP_DOT || currentToken.type = .OP_CLASS_ACCESSOR then
        let ntype := if currentToken.type = .OP_DOT then NodeType.MEMBER_ACCESS_NODE
                     else NodeType.CLASS_ACCESS_NODE
        match accs with
        | [] =>
          let val := PG_get_member_access_side_node_tree gas tokens (startPos + skip)
              .LEFT useOptionalTyping
          -- `continue` without advancing `skip`: the same token is revisited
          PG_member_access_loop gas tokens startPos useOptionalTyping skip
            [(currentToken.value, ntype, val.node)] openBrackets openEdgeBrackets
        | _ =>
          let val := PG_get_member_access_side_node_tree gas tokens (startPos + skip)
              .RIGHT useOptionalTyping
          PG_member_access_loop gas tokens startPos useOptionalTyping
            (skip + val.tokensToSkip)
            (accs ++ [(currentToken.value, ntype, val.node)]) openBrackets openEdgeBrackets
      else if PG_is_operator currentToken then
        match accs with
        | [] =>
          -- brackets are counted, `skip` advances, then the loop breaks either way
          let _hb := PG_handle_member_access_brackets currentToken openBrackets openEdgeBrackets
          (accs, skip + 1)
        | _ => (accs, skip)
      else if currentToken.type = .IDENTIFIER
          && (tget tokens (startPos + skip - 1)).type = .IDENTIFIER then (accs, skip)
      else PG_member_access_loop gas tokens startPos useOptionalTyping (skip+1) accs
          openBrackets openEdgeBrackets
    else (accs, skip)
termination_by structural gas

/-- C `PG_get_member_access_side_node_tree` (with
`PG_propagate_offset_by_direction` inlined as the computation of
`internalSkip`: LEFT backs over an array access, RIGHT advances one, STAY
stays). -/
def PG_get_member_access_side_node_tree (gas : Nat) (tokens : List TOKEN)
    (startPos : Nat) (direction : processDirection) (useOptionalTyping : Bool) : NodeReport :=
  match gas with
  | 0 => PG_create_node_report none 0
  | gas+1 =>
    let internalSkip : Nat :=
      match direction with
      | .LEFT => startPos - PG_back_shift_array_access tokens startPos
      | .RIGHT => startPos + 1
      | .STAY => startPos
    let st : Option Node × Nat :=
      if PG_is_function_call tokens internalSkip = 1 then
        let nextIden := if direction = .LEFT then
            internalSkip - PG_propagate_back_till_iden tokens internalSkip
          else internalSkip
        let functionCallReport := PG_create_function_call_tree gas tokens nextIden
        let is2 := if direction = .LEFT then nextIden + functionCallReport.tokensToSkip
                   else internalSkip + functionCallReport.tokensToSkip
        (functionCallReport.node, is2)
      else
        let token := tget tokens internalSkip
        let value := PG_get_identifier_by_index token
        (some (PG_create_node value (PG_get_node_type_by_value value)), internalSkip + 1)
    let post := PG_create_post_member_access_side_node_tree gas tokens st.1 st.2 useOptionalTyping
    PG_create_node_report post.1 (post.2 - startPos)
termination_by structural gas

/-- C `PG_create_post_member_access_side_node_tree`: appends an array-access
chain or an optional type annotation, then stores the (possibly NULL)
result into `topNode->leftNode`. -/
def PG_create_post_member_access_side_node_tree (gas : Nat) (tokens : List TOKEN)
    (topNode : Option Node) (internalSkip : Nat) (useOptionalTyping : Bool) :
    Option Node × Nat :=
  match gas with
  | 0 => (topNode, internalSkip)
  | gas+1 =>
    let st : NodeReport × Option Node :=
      if (tget tokens internalSkip).type = .OP_RIGHT_EDGE_BRACKET then
        (PG_create_array_access_tree gas tokens internalSkip, topNode)
      else if (tget tokens internalSkip).type = .OP_COLON then
        if useOptionalTyping then
          match topNode with
          | some tn =>
            let res := PG_add_varType_definition tokens (internalSkip + 1) tn
            ({ node := none, tokensToSkip := res.1 }, some res.2)
          | none => ({ node := none, tokensToSkip := 0 }, topNode)
        else ({ node := none, tokensToSkip := 0 }, topNode)
      else ({ node := none, tokensToSkip := 0 }, topNode)
    (st.2.map (fun tn => tn.withLeft st.1.node), internalSkip + st.1.tokensToSkip)
termination_by structural gas

/-- C `PG_create_array_access_tree`. -/
def PG_create_array_access_tree (gas : Nat) (tokens : List TOKEN) (startPos : Nat) : NodeReport :=
  match gas with
  | 0 => PG_create_node_report none 0
  | gas+1 => PG_array_access_loop gas tokens startPos 0 []
termination_by structural gas

/-- Loop of C `PG_create_array_access_tree`.  A C `-1` result of
`PG_get_term_bounds` is an unbounded `size_t` bound; it is modelled as a
bound past the end of the array (the scan stops at the EOF sentinel either
way). -/
def PG_array_access_loop (gas : Nat) (tokens : List TOKEN) (startPos skip : Nat)
    (accs : List (Option Node)) : NodeReport :=
  match gas with
  | 0 => PG_create_node_report (PG_build_arr_acc_chain accs) skip
  | gas+1 =>
    if (tget tokens (startPos + skip)).type = .OP_RIGHT_EDGE_BRACKET
        && startPos + skip < tokens.length then
      let rep :=
        if PG_predict_increment_or_decrement_assignment tokens (startPos + skip + 1) then
          PG_create_increment_decrement_tree gas tokens (startPos + skip + 1)
        else
          let termBounds := (PG_get_term_bounds tokens (startPos + skip + 1)).getD
              (tokens.length + 1)
          PG_create_simple_term_node gas tokens (startPos + skip + 1) termBounds
      PG_array_access_loop gas tokens startPos (skip + rep.tokensToSkip + 2) (accs ++ [rep.node])
    else PG_create_node_report (PG_build_arr_acc_chain accs) skip
termination_by structural gas

/-- C `PG_create_increment_decrement_tree`. -/
def PG_create_increment_decrement_tree (gas : Nat) (tokens : List TOKEN)
    (startPos : Nat) : NodeReport :=
  match gas with
  | 0 => PG_create_node_report none 0
  | gas+1 =>
    let st := PG_incr_decr_loop gas tokens startPos 0 false none none []
    PG_create_node_report
      (some (Node.mk (cs "SASS") .SIMPLE_INC_DEC_ASS_NODE st.2.2.1 st.2.1 st.2.2.2)) st.1
termination_by structural gas

/-- Loop of C `PG_create_increment_decrement_tree`; the state is
`(skip, cache, topNode->leftNode, topNode->details)`. -/
def PG_incr_decr_loop (gas : Nat) (tokens : List TOKEN) (startPos skip : Nat)
    (idenpassedBy : Bool) (cache topLeft : Option Node) (details : List (Option Node)) :
    Nat × Option Node × Option Node × List (Option Node) :=
  match gas with
  | 0 => (skip, cache, topLeft, details)
  | gas+1 =>
    if startPos + skip < tokens.length then
      let currentToken := tget tokens (startPos + skip)
      match currentToken.type with
      | .IDENTIFIER =>
        let idenRep := PG_create_member_access_tree gas tokens (startPos + skip) false
        PG_incr_decr_loop gas tokens startPos (skip + idenRep.tokensToSkip) true
          none cache [idenRep.node]
      | .OP_ADD_ONE =>
        let currentNode := PG_create_node (cs "++") .INCREMENT_ONE_NODE
        let cache2 := match cache with
          | none => currentNode
          | some c =>
            if idenpassedBy = false then currentNode.withLeft (some c)
            else currentNode.withRight (some c)
        PG_incr_decr_loop gas tokens startPos (skip+1) idenpassedBy (some cache2) topLeft details
      | .OP_SUBTRACT_ONE =>
        let currentNode := PG_create_node (cs "--") .DECREMENT_ONE_NODE
        let cache2 := match cache with
          | none => currentNode
          | some c =>
            if idenpassedBy = false then currentNode.withLeft (some c)
            else currentNode.withRight (some c)
        PG_incr_decr_loop gas tokens startPos (skip+1) idenpassedBy (some cache2) topLeft details
      | _ => (skip, cache, topLeft, details)
    else (skip, cache, topLeft, details)
termination_by structural gas

/-- C `PG_create_function_call_tree`. -/
def PG_create_function_call_tree (gas : Nat) (tokens : List TOKEN) (startPos : Nat) : NodeReport :=
  match gas with
  | 0 => PG_create_node_report none 0
  | gas+1 =>
    let token := tget tokens startPos
    let name := PG_get_identifier_by_index token
    let functionCallNode := (PG_create_node name .FUNCTION_CALL_NODE).withDetails
        (List.replicate (PG_predict_argument_count tokens (startPos + 1) 1) none)
    let res := PG_add_params_loop gas tokens (startPos + 2) .NULL_MARKER functionCallNode
        (startPos + 2) 0 0
    let paramSize := if res.2 > 0 then res.2 - 1 else res.2
    PG_create_node_report (some res.1) (paramSize + 3)
termination_by structural gas

/-- C `PG_add_params_to_node` (loop form; the for-update stores
`skip = i - startPos` before incrementing `i`). -/
def PG_add_params_loop (gas : Nat) (tokens : List TOKEN) (startPos : Nat)
    (stdType : NodeType) (node : Node) (i skip dp : Nat) : Node × Nat :=
  match gas with
  | 0 => (node, skip)
  | gas+1 =>
    if i < tokens.length then
      let currentToken := tget tokens i
      if currentToken.type ≠ .OP_LEFT_BRACKET && currentToken.type ≠ .OP_RIGHT_BRACE
          && currentToken.type ≠ .OP_CLASS_CREATOR && currentToken.type ≠ .KW_WITH
          && currentToken.type ≠ .KW_EXTENDS && currentToken.type ≠ .OP_CLASS_ACCESSOR then
        if dp = node.detailsCount then (node, skip)
        else
          let st : NodeReport × Nat :=
            if predict_is_conditional_assignment_type tokens i tokens.length then
              (PG_create_condition_assignment_tree gas tokens i, i)
            else
              let bounds := PG_get_bound_of_single_param tokens i
              let report := PG_create_simple_term_node gas tokens i bounds
              if (tget tokens (i + bounds)).type = .OP_COLON then
                match report.node with
                | some rn =>
                  let vt := PG_add_varType_definition tokens (i + bounds + 1) rn
                  ({ node := some vt.2, tokensToSkip := report.tokensToSkip }, i + vt.1 + 1)
                | none => (report, i)
              else (report, i)
          let child := st.1.node.map
              (fun rn => if stdType = .NULL_MARKER then rn else rn.withType stdType)
          let node2 := node.withDetails (node.details.set dp child)
          let i2 := st.2 + st.1.tokensToSkip
          PG_add_params_loop gas tokens startPos stdType node2 (i2 + 1) (i2 - startPos) (dp + 1)
      else (node, skip)
    else (node, skip)
termination_by structural gas

/-- C `PG_create_condition_assignment_tree`. -/
def PG_create_condition_assignment_tree (gas : Nat) (tokens : List TOKEN)
    (startPos : Nat) : NodeReport :=
  match gas with
  | 0 => PG_create_node_report none 0
  | gas+1 =>
    let conditionReport := PG_create_chained_condition_tree gas tokens startPos false
    let skip0 := conditionReport.tokensToSkip + 1
    let trueValue :=
      if predict_is_conditional_assignment_type tokens (startPos + skip0) tokens.length then
        PG_create_condition_assignment_tree gas tokens (startPos + skip0)
      else
        let bounds := PG_get_cond_assignment_bounds tokens (startPos + skip0)
        let tv := PG_create_simple_term_node gas tokens (startPos + skip0) bounds
        { node := tv.node, tokensToSkip := tv.tokensToSkip + 1 }
    let skip1 := skip0 + trueValue.tokensToSkip
    let falseValue :=
      if predict_is_conditional_assignment_type tokens (startPos + skip1) tokens.length then
        PG_create_condition_assignment_tree gas tokens (startPos + skip1)
      else
        let bounds := PG_get_cond_assignment_bounds tokens (startPos + skip1)
        let fv := PG_create_simple_term_node gas tokens (startPos + skip1) bounds
        { node := fv.node, tokensToSkip := fv.tokensToSkip + 1 }
    let skip2 := skip1 + falseValue.tokensToSkip
    PG_create_node_report
      (some (Node.mk (cs "?") .CONDITIONAL_ASSIGNMENT_NODE conditionReport.node none
        [trueValue.node, falseValue.node])) skip2
termination_by structural gas

/-- C `PG_create_chained_condition_tree` (`inDepth` is unused by the C body). -/
def PG_create_chained_condition_tree (gas : Nat) (tokens : List TOKEN)
    (startPos : Nat) (_inDepth : Bool) : NodeReport :=
  match gas with
  | 0 => PG_create_node_report none 0
  | gas+1 =>
    let hasLogicOperators := PG_contains_logical_operator tokens startPos
    let st :=
      if hasLogicOperators then PG_chained_condition_loop gas tokens startPos 0 startPos none
      else (none, 0)
    match st.1 with
    | some c => PG_create_node_report (some c) st.2
    | none =>
      let rep :=
        if (tget tokens startPos).type = .OP_RIGHT_BRACKET then
          PG_create_chained_condition_tree gas tokens (startPos + 1) true
        else PG_create_condition_tree gas tokens startPos
      PG_create_node_report rep.node rep.tokensToSkip
termination_by structural gas

/-- Loop of C `PG_create_chained_condition_tree`.  The C guard is
`skip < TOKEN_LENGTH` (on the relative `skip`); `lastCondStart` is
initialised to `startPos` and later reassigned the relative `skip + 1`,
both being passed verbatim to `PG_create_condition_tree`, exactly as the C
does. -/
def PG_chained_condition_loop (gas : Nat) (tokens : List TOKEN) (startPos skip lastCondStart : Nat)
    (cache : Option Node) : Option Node × Nat :=
  match gas with
  | 0 => (cache, skip)
  | gas+1 =>
    if skip < tokens.length then
      let currentToken := tget tokens (startPos + skip)
      match currentToken.type with
      | .OP_RIGHT_BRACKET =>
        let rep := PG_create_chained_condition_tree gas tokens (startPos + skip + 1) true
        let skip2 := skip + rep.tokensToSkip
        let cache2 := match cache with
          | none => rep.node
          | some c =>
            if c.leftNode.isNone then some (c.withLeft rep.node)
            else some (c.withRight rep.node)
        PG_chained_condition_loop gas tokens startPos skip2 lastCondStart cache2
      | .OP_LEFT_BRACKET | .OP_SEMICOLON | .OP_QUESTION_MARK => (cache, skip)
      | .KW_OR | .KW_AND =>
        let ntype := if currentToken.type = .KW_AND then NodeType.AND_NODE else NodeType.OR_NODE
        let left := match cache with
          | none => (PG_create_condition_tree gas tokens lastCondStart).node
          | some c => some c
        let rightReport :=
          if (tget tokens (startPos + skip + 1)).type = .OP_RIGHT_BRACKET then
            PG_create_chained_condition_tree gas tokens (startPos + skip + 2) true
          else PG_create_condition_tree gas tokens (startPos + skip + 1)
        let skip2 := skip + rightReport.tokensToSkip
        let node := Node.mk currentToken.value ntype left rightReport.node []
        PG_chained_condition_loop gas tokens startPos (skip2 + 1) (skip2 + 1) (some node)
      | _ => PG_chained_condition_loop gas tokens startPos (skip+1) lastCondStart cache
    else (cache, skip)
termination_by structural gas

/-- C `PG_create_condition_tree`. -/
def PG_create_condition_tree (gas : Nat) (tokens : List TOKEN) (startPos : Nat) : NodeReport :=
  match gas with
  | 0 => PG_create_node_report none 0
  | gas+1 => PG_condition_tree_loop gas tokens startPos 0
termination_by structural gas

/-- Loop of C `PG_create_condition_tree`. -/
def PG_condition_tree_loop (gas : Nat) (tokens : List TOKEN) (startPos skip : Nat) : NodeReport :=
  match gas with
  | 0 => PG_create_node_report none 0
  | gas+1 =>
    if startPos + skip < tokens.length then
      let currentToken := tget tokens (startPos + skip)
      if PG_is_condition_operator currentToken.type then
        let leftBounds := PG_get_condition_iden_length tokens startPos
        let rightBounds := PG_get_condition_iden_length tokens (startPos + skip + 1)
        let rightTermReport := PG_create_simple_term_node gas tokens (startPos + skip + 1) rightBounds
        let leftTermReport := PG_create_simple_term_node gas tokens startPos leftBounds
        let conditionNode := Node.mk currentToken.value
            (PG_get_node_type_by_value currentToken.value)
            leftTermReport.node rightTermReport.node []
        PG_create_node_report (some conditionNode) (skip + rightBounds + 1)
      else if (currentToken.type = .KW_TRUE || currentToken.type = .KW_FALSE)
          && PG_is_condition_operator (tget tokens (startPos + skip + 1)).type = false then
        PG_create_node_report (some (PG_create_node currentToken.value .BOOL_NODE)) 1
      else PG_condition_tree_loop gas tokens startPos (skip+1)
    else PG_create_node_report none 0

termination_by structural gas
end

/-! ## Semantic analyzer (`src/src/semanticAnalyzer.c`) -/

/-- C `enum ScopeType` (declared in the repository's `semantic.h`). -/
inductive ScopeType where
  | MAIN | CLASS | FUNCTION | CONSTRUCTOR | ENUM | ENUMERATOR | VARIABLE
  | IF | ELSE_IF | ELSE | WHILE | DO | FOR | TRY | CATCH | IS
  | EXTERNAL | FUNCTION_CALL
deriving DecidableEq, Repr

/-- C `enum VarType` (declared in the repository's `semantic.h`; `null` is
rendered `NULL_TYPE`). -/
inductive VarType where
  | INTEGER | LONG | SHORT | DOUBLE | FLOAT | CHAR | STRING | BOOLEAN | VOID
  | NULL_TYPE | CLASS_REF | CUSTOM | EXTERNAL_RET
  | E_FUNCTION_CALL | E_NON_FUNCTION_CALL | CONSTRUCTOR_PARAM
deriving DecidableEq, Repr

/-- C `enum Visibility`. -/
inductive Visibility where
  | P_GLOBAL | GLOBAL | SECURE | PRIVATE
deriving DecidableEq, Repr

/-- C `enum ErrorType` (the misspelling of `WRONG_ARGUMENT_EXCPEPTION` is
the source's). -/
inductive ErrorType where
  | NONE
  | ALREADY_DEFINED_EXCEPTION
  | NOT_DEFINED_EXCEPTION
  | TYPE_MISMATCH_EXCEPTION
  | STATEMENT_MISPLACEMENT_EXCEPTION
  | WRONG_ACCESSOR_EXCEPTION
  | WRONG_ARGUMENT_EXCPEPTION
  | MODIFIER_EXCEPTION
  | NO_SUCH_ARRAY_DIMENSION_EXCEPTION
deriving DecidableEq, Repr

/-- C `enum ErrorStatus`. -/
inductive ErrorStatus where
  | SUCCESS | ERROR | NA
deriving DecidableEq, Repr

/-- C `enum FunctionCallType`. -/
inductive FunctionCallType where
  | FNC_CALL | CONSTRUCTOR_CALL | CONSTRUCTOR_CHECK_CALL
deriving DecidableEq, Repr

/-- C `struct VarDec`. -/
structure VarDec where
  type : VarType
  dimension : Int
  classType : Option (List Char)
  constant : Bool
deriving DecidableEq, Repr

/-- C global `nullDec` = `{null, 0, NULL, false}`. -/
def nullDec : VarDec := { type := .NULL_TYPE, dimension := 0, classType := none, constant := false }

/-- C global `externalDec` = `{EXTERNAL_RET, 0, NULL}`. -/
def externalDec : VarDec := { type := .EXTERNAL_RET, dimension := 0, classType := none, constant := false }

/-- C `struct SemanticReport` (the `description` message is omitted). -/
structure SemanticReport where
  status : ErrorStatus
  dec : VarDec
  errorNode : Option Node
  errorType : ErrorType

/-- C `SA_create_semantic_report` (without the message). -/
def SA_create_semantic_report (type : VarDec) (status : ErrorStatus)
    (errorNode : Option Node) (errorType : ErrorType) : SemanticReport :=
  { status := status, dec := type, errorNode := errorNode, errorType := errorType }

/-- C global `nullRep`. -/
def nullRep : SemanticReport := SA_create_semantic_report nullDec .SUCCESS none .NONE

/-- C `SA_create_expected_got_report` (the rendered expected/got message is
omitted; the report's status, error type and error node are kept). -/
def SA_create_expected_got_report (_expected _got : VarDec) (errorNode : Option Node) :
    SemanticReport :=
  SA_create_semantic_report nullDec .ERROR errorNode .TYPE_MISMATCH_EXCEPTION

mutual
/-- C `SemanticEntry` (`semantic.h`): an entry may own a reference table.
Source positions are omitted. -/
inductive SemanticEntry where
  | mk (name : List Char) (dec : VarDec) (visibility : Visibility)
       (internalType : ScopeType) (reference : Option SemanticTable)

/-- C `SemanticTable` (`semantic.h`): a table points at its parent.  The
hashmap is modelled as the list of its entries, keyed by the entry name
(every `HM_add_entry` call in the source passes the entry's own name as the
key); the ordered parameter list is a list.  Source positions are omitted. -/
inductive SemanticTable where
  | mk (name : List Char) (type : ScopeType) (paramList : List SemanticEntry)
       (symbolTable : List SemanticEntry) (parent : Option SemanticTable)
end

def SemanticEntry.name : SemanticEntry → List Char
  | .mk n _ _ _ _ => n

def SemanticEntry.dec : SemanticEntry → VarDec
  | .mk _ d _ _ _ => d

def SemanticEntry.visibility : SemanticEntry → Visibility
  | .mk _ _ v _ _ => v

def SemanticEntry.internalType : SemanticEntry → ScopeType
  | .mk _ _ _ t _ => t

def SemanticEntry.reference : SemanticEntry → Option SemanticTable
  | .mk _ _ _ _ r => r

def SemanticTable.name : SemanticTable → List Char
  | .mk n _ _ _ _ => n

def SemanticTable.type : SemanticTable → ScopeType
  | .mk _ t _ _ _ => t

def SemanticTable.paramList : SemanticTable → List SemanticEntry
  | .mk _ _ p _ _ => p

def SemanticTable.symbolTable : SemanticTable → List SemanticEntry
  | .mk _ _ _ s _ => s

def SemanticTable.parent : SemanticTable → Option SemanticTable
  | .mk _ _ _ _ p => p

def SemanticTable.withSymbolTable : SemanticTable → List SemanticEntry → SemanticTable
  | .mk n t p _ par, s => .mk n t p s par

def SemanticTable.withParamList : SemanticTable → List SemanticEntry → SemanticTable
  | .mk n t _ s par, p => .mk n t p s par

/-- C `struct SemanticEntryReport`. -/
structure SemanticEntryReport where
  entry : Option SemanticEntry
  success : Bool
  errorOccured : Bool

/-- C `SA_create_semantic_entry_report`. -/
def SA_create_semantic_entry_report (entry : Option SemanticEntry)
    (success errorOccured : Bool) : SemanticEntryReport :=
  { entry := entry, success := success, errorOccured := errorOccured }

/-- C `SA_create_semantic_entry` (line/position omitted). -/
def SA_create_semantic_entry (name : List Char) (varType : VarDec)
    (visibility : Visibility) (internalType : ScopeType)
    (ptr : Option SemanticTable) : SemanticEntry :=
  .mk name varType visibility internalType ptr

/-- C `HM_contains_key` on the list-modelled hashmap. -/
def HM_contains_key (key : List Char) (map : List SemanticEntry) : Bool :=
  map.any (fun e => e.name == key)

/-- C `HM_get_entry`'s value lookup on the list-modelled hashmap. -/
def HM_get_entry (key : List Char) (map : List SemanticEntry) : Option SemanticEntry :=
  map.find? (fun e => e.name == key)

/-- C `HM_add_entry` (bucket insertion modelled as an append; the embedded
checks never depend on iteration order). -/
def HM_add_entry (entry : SemanticEntry) (map : List SemanticEntry) : List SemanticEntry :=
  map ++ [entry]

/-- C `L_add_item` on the ordered parameter list. -/
def L_add_item (list : List SemanticEntry) (entry : SemanticEntry) : List SemanticEntry :=
  list ++ [entry]

/-- C `L_get_item` (`NULL` for an out-of-range index). -/
def L_get_item (list : List SemanticEntry) (i : Nat) : Option SemanticEntry :=
  list.get? i

/-- Scan of C `SA_get_param_entry_if_available` over a parameter list
(`L_get_item` plus `strcmp` on each entry). -/
def SA_param_list_lookup (key : List Char) (paramList : List SemanticEntry) :
    Option SemanticEntry :=
  paramList.find? (fun e => e.name == key)

/-- C `SA_get_param_entry_if_available`. -/
def SA_get_param_entry_if_available (key : List Char) (table : Option SemanticTable) :
    Option SemanticEntry :=
  match table with
  | none => none
  | some t => SA_param_list_lookup key t.paramList

/-- Walk of C `SA_is_obj_already_defined`: search the symbol map and the
parameter list (the C calls `SA_get_param_entry_if_available` on the same
table) of every table from the given scope up to the root. -/
def SA_is_obj_already_defined_walk (key : List Char) (t : SemanticTable) : Bool :=
  match t with
  | .mk _ _ paramList symbolTable parent =>
    if HM_contains_key key symbolTable
        || (SA_param_list_lookup key paramList).isSome then
      true
    else
      match parent with
      | none => false
      | some p => SA_is_obj_already_defined_walk key p
termination_by structural t

/-- C `SA_is_obj_already_defined`. -/
def SA_is_obj_already_defined (key : List Char) : Option SemanticTable → Bool
  | none => false
  | some t => SA_is_obj_already_defined_walk key t

/-- Walk of C `SA_get_next_table_of_type`: up until the requested scope type
or the `MAIN` table. -/
def SA_get_next_table_of_type_walk (t : SemanticTable) (type : ScopeType) :
    Option SemanticTable :=
  match t with
  | .mk n ty pl st parent =>
    if type = ty || ty = .MAIN then some (.mk n ty pl st parent)
    else
      match parent with
      | none => none
      | some p => SA_get_next_table_of_type_walk p type
termination_by structural t

/-- C `SA_get_next_table_of_type`. -/
def SA_get_next_table_of_type (currentTable : Option SemanticTable) (type : ScopeType) :
    Option SemanticTable :=
  match currentTable with
  | none => none
  | some t => SA_get_next_table_of_type_walk t type

/-- Walk of C `SA_get_next_table_with_declaration`: innermost table whose
symbol map or parameter list holds the node's name; `none` when the walk
exits the root. -/
def SA_get_next_table_with_declaration_walk (node : Node) (t : SemanticTable) :
    Option SemanticTable :=
  match t with
  | .mk n ty pl st parent =>
    if HM_contains_key node.value st = false
        && (SA_param_list_lookup node.value pl).isNone then
      match parent with
      | none => none
      | some p => SA_get_next_table_with_declaration_walk node p
    else some (.mk n ty pl st parent)
termination_by structural t

/-- C `SA_get_next_table_with_declaration`. -/
def SA_get_next_table_with_declaration (node : Node) :
    Option SemanticTable → Option SemanticTable
  | none => none
  | some t => SA_get_next_table_with_declaration_walk node t

/-- C `SA_get_entry_if_available`: the parameter list is consulted first,
then the symbol map overrides. -/
def SA_get_entry_if_available (topNode : Option Node) (table : Option SemanticTable) :
    SemanticEntryReport :=
  match topNode, table with
  | none, _ => SA_create_semantic_entry_report none false true
  | _, none => SA_create_semantic_entry_report none false true
  | some n, some t =>
    let entry0 := SA_get_param_entry_if_available n.value (some t)
    let entry := if HM_contains_key n.value t.symbolTable then
                   HM_get_entry n.value t.symbolTable
                 else entry0
    match entry with
    | none => SA_create_semantic_entry_report none false true
    | some e => SA_create_semantic_entry_report (some e) true false

/-- C `TYPE_LOOKUP` table. -/
def TYPE_LOOKUP : List (List Char × VarType) :=
  [(cs "int", .INTEGER), (cs "double", .DOUBLE), (cs "float", .FLOAT),
   (cs "short", .SHORT), (cs "long", .LONG), (cs "char", .CHAR),
   (cs "boolean", .BOOLEAN), (cs "String", .STRING), (cs "void", .VOID)]

/-- Lookup scan of C `SA_get_VarType`: `strstr(value, name)` at position 0,
i.e. the table name is a prefix of the value. -/
def SA_lookup_prefix_type : List (List Char × VarType) → List Char → Option VarType
  | [], _ => none
  | (name, t) :: rest, v =>
    if name.isPrefixOf v then some t else SA_lookup_prefix_type rest v

/-- C `atoi` restricted to the decimal forms produced by the tree builder
(an optional minus sign followed by digits; anything else parses as 0). -/
def atoi_digits : List Char → Nat → Nat
  | [], acc => acc
  | c :: rest, acc =>
    if is_digit c then atoi_digits rest (acc * 10 + (c.toNat - Char.toNat '0')) else acc

/-- See `atoi_digits`. -/
def atoi : List Char → Int
  | '-' :: rest => -(atoi_digits rest 0 : Int)
  | s => (atoi_digits s 0 : Int)

/-- Array dimension of a type node: `node->leftNode == NULL ? 0 :
atoi(node->leftNode->value)`. -/
def SA_dimension_of (node : Node) : Int :=
  match node.leftNode with
  | none => 0
  | some l => atoi l.value

/-- C `SA_get_VarType`. -/
def SA_get_VarType (node : Option Node) (constant : Bool) : VarDec :=
  match node with
  | none => { type := .CUSTOM, dimension := 0, classType := none, constant := constant }
  | some n =>
    match SA_lookup_prefix_type TYPE_LOOKUP n.value with
    | some t => { type := t, dimension := SA_dimension_of n, classType := none, constant := constant }
    | none => { type := .CLASS_REF, dimension := SA_dimension_of n,
                classType := some n.value, constant := constant }

/-- C `SA_get_visibility`.  A non-modifier node makes the C process exit;
that branch is unreachable for trees the builder produces and is rendered as
the default visibility. -/
def SA_get_visibility (visibilityNode : Option Node) : Visibility :=
  match visibilityNode with
  | none => .P_GLOBAL
  | some n =>
    if n.type ≠ .MODIFIER_NODE then .P_GLOBAL
    else if n.value = cs "global" then .GLOBAL
    else if n.value = cs "secure" then .SECURE
    else if n.value = cs "private" then .PRIVATE
    else .P_GLOBAL

/-- C `SA_convert_identifier_to_VarType`. -/
def SA_convert_identifier_to_VarType (node : Node) : VarDec :=
  let t : VarType := match node.type with
    | .FLOAT_NODE => .DOUBLE
    | .NUMBER_NODE => .INTEGER
    | _ => .CUSTOM
  { type := t, dimension := SA_dimension_of node, classType := none, constant := false }

/-- C `SA_is_node_arithmetic_operator`. -/
def SA_is_node_arithmetic_operator (node : Node) : Bool :=
  match node.type with
  | .PLUS_NODE | .MINUS_NODE | .MULTIPLY_NODE | .MODULO_NODE | .DIVIDE_NODE => true
  | _ => false

/-- C `SA_are_strict_VarTypes_equal`. -/
def SA_are_strict_VarTypes_equal (type1 type2 : VarDec) : Bool :=
  if type1.type = .CLASS_REF && type2.type = .CLASS_REF
      && type1.classType.getD [] == type2.classType.getD []
      && type1.dimension = type2.dimension then true
  else if type1.type = .EXTERNAL_RET || type2.type = .EXTERNAL_RET then true
  else type1.type = type2.type && type1.dimension = type2.dimension

/-- C `SA_are_non_strict_VarTypes_equal`. -/
def SA_are_non_strict_VarTypes_equal (type1 type2 : VarDec) : Bool :=
  if (type1.type = .DOUBLE || type1.type = .FLOAT)
      && (type2.type = .DOUBLE || type2.type = .FLOAT)
      && type1.dimension = type2.dimension then true
  else if type1.type = .CUSTOM && type1.dimension = type2.dimension then true
  else if type1.type = .CLASS_REF && type2.type = .CLASS_REF
      && type1.classType.getD [] == type2.classType.getD []
      && type1.dimension = type2.dimension then true
  else if type1.type = .EXTERNAL_RET || type2.type = .EXTERNAL_RET then true
  else type1.type = type2.type && type1.dimension = type2.dimension

/-- C `SA_are_VarTypes_equal`. -/
def SA_are_VarTypes_equal (type1 type2 : VarDec) (strict : Bool) : Bool :=
  if strict then SA_are_strict_VarTypes_equal type1 type2
  else SA_are_non_strict_VarTypes_equal type1 type2

/-- C `SA_get_node_param_count`: details entries that are neither NULL nor a
runnable. -/
def SA_get_node_param_count_aux : List (Option Node) → Nat
  | [] => 0
  | none :: rest => SA_get_node_param_count_aux rest
  | some d :: rest =>
    if d.type = .RUNNABLE_NODE then SA_get_node_param_count_aux rest
    else SA_get_node_param_count_aux rest + 1

/-- C `SA_get_node_param_count`. -/
def SA_get_node_param_count (paramHolder : Node) : Nat :=
  SA_get_node_param_count_aux paramHolder.details

/-- C `SA_get_params` (the `stdType` parameter is dead in the source; each
parameter's type is taken from its `details[0]` annotation). -/
def SA_get_params_aux : List (Option Node) → List SemanticEntry
  | [] => []
  | none :: rest => SA_get_params_aux rest
  | some innerNode :: rest =>
    if innerNode.type = .RUNNABLE_NODE || innerNode.type = .VAR_TYPE_NODE then
      SA_get_params_aux rest
    else
      let typeNode := if innerNode.detailsCount > 0 then innerNode.details.getD 0 none else none
      SA_create_semantic_entry innerNode.value (SA_get_VarType typeNode false)
        .P_GLOBAL .VARIABLE none :: SA_get_params_aux rest

/-- C `SA_get_params`. -/
def SA_get_params (topNode : Node) (_stdType : VarDec) : List SemanticEntry :=
  SA_get_params_aux topNode.details

/-- C `SA_create_new_scope_table` combined with
`SA_add_parameters_to_runnable_table`: fresh table carrying the parameter
entries, the scope type and the parent link. -/
def SA_create_new_scope_table (_root : Option Node) (scope : ScopeType)
    (parent : Option SemanticTable) (params : List SemanticEntry) : SemanticTable :=
  .mk [] scope params [] parent

/-- C `SA_execute_function_call_precheck`. -/
def SA_execute_function_call_precheck (ref : Option SemanticTable) (topNode : Node)
    (fnccType : FunctionCallType) : SemanticReport :=
  match ref with
  | none => nullRep
  | some r =>
    if topNode.detailsCount ≠ r.paramList.length then
      SA_create_semantic_report nullDec .ERROR (some topNode) .WRONG_ARGUMENT_EXCPEPTION
    else if fnccType = .CONSTRUCTOR_CHECK_CALL then nullRep
    else if (topNode.type = .FUNCTION_CALL_NODE && r.type ≠ .FUNCTION)
        || (topNode.type = .CLASS_CONSTRUCTOR_NODE && r.type ≠ .CONSTRUCTOR) then
      SA_create_expected_got_report
        { type := .E_FUNCTION_CALL, dimension := 0, classType := none, constant := false }
        { type := .E_NON_FUNCTION_CALL, dimension := 0, classType := none, constant := false }
        (some topNode)
    else nullRep

/-- C `SA_evaluate_modifier`. -/
def SA_evaluate_modifier (currentScope : Option SemanticTable) (vis : Visibility)
    (node : Node) (topTable : Option SemanticTable) : SemanticReport :=
  if (topTable.map SemanticTable.type).getD .MAIN = .MAIN
      && topTable.isSome then
    if vis ≠ .P_GLOBAL then
      SA_create_semantic_report nullDec .ERROR (some node) .STATEMENT_MISPLACEMENT_EXCEPTION
    else nullRep
  else
    match SA_get_next_table_of_type currentScope .CLASS with
    | none => nullRep
    | some nextClassTable =>
      let csName := match currentScope with
        | some c => c.name
        | none => []
      if csName == nextClassTable.name && nextClassTable.type ≠ .MAIN then nullRep
      else if vis = .PRIVATE || vis = .SECURE then
        SA_create_semantic_report nullDec .ERROR (some node) .MODIFIER_EXCEPTION
      else nullRep

/-- C `SA_execute_access_type_checking` (the self-comparison
`strcmp(topScope->name, topScope->name) != 0` of the source is kept and is
always false). -/
def SA_execute_access_type_checking (cacheNode : Option Node)
    (currentScope topScope : Option SemanticTable) : SemanticReport :=
  match cacheNode, currentScope, topScope with
  | none, _, _ => nullRep
  | some cn, some cScope, some tScope =>
    if cn.type = .CLASS_ACCESS_NODE then
      if cScope.type ≠ .CLASS then
        SA_create_semantic_report nullDec .ERROR (some cn) .WRONG_ACCESSOR_EXCEPTION
      else SA_create_semantic_report nullDec .SUCCESS none .NONE
    else if cn.type = .MEMBER_ACCESS_NODE then
      if (tScope.type ≠ .CLASS || (tScope.name == tScope.name) = false)
          && cScope.type ≠ .ENUM then
        SA_create_semantic_report nullDec .ERROR (some cn) .WRONG_ACCESSOR_EXCEPTION
      else SA_create_semantic_report nullDec .SUCCESS none .NONE
    else nullRep
  | some _, _, _ =>
    -- a NULL scope is unreachable here: the callers return NOT_DEFINED first
    nullRep

/-- Walk of C `SA_is_break_or_continue_placement_valid`: `metLoop` latches
at loop scopes, pass-through scopes keep walking, any other scope stops. -/
def SA_is_break_or_continue_placement_valid_walk (t : SemanticTable) (metLoop : Bool) : Bool :=
  match t with
  | .mk _ ty _ _ parent =>
    let step : Option Bool :=
      match ty with
      | .FOR | .WHILE | .DO | .IS => some true
      | .IF | .ELSE_IF | .ELSE | .TRY | .CATCH => some metLoop
      | _ => none
    match step with
    | none => metLoop
    | some m =>
      match parent with
      | none => m
      | some p => SA_is_break_or_continue_placement_valid_walk p m
termination_by structural t

/-- C `SA_is_break_or_continue_placement_valid`. -/
def SA_is_break_or_continue_placement_valid (table : Option SemanticTable) : Bool :=
  match table with
  | none => false
  | some t => SA_is_break_or_continue_placement_valid_walk t false

/-- C `SA_check_break_or_continue_to_table`: the emitted misplacement
diagnostics (the break/continue message text is omitted). -/
def SA_check_break_or_continue_to_table (table : SemanticTable)
    (breakOrContinueNode : Node) : List SemanticReport :=
  if SA_is_break_or_continue_placement_valid (some table) = false then
    [SA_create_semantic_report nullDec .ERROR (some breakOrContinueNode)
      .STATEMENT_MISPLACEMENT_EXCEPTION]
  else []

mutual

/-- C `SA_evaluate_simple_term`. -/
def SA_evaluate_simple_term (gas : Nat) (expectedType : VarDec) (topNode : Node)
    (table : Option SemanticTable) : SemanticReport :=
  match gas with
  | 0 => nullRep
  | gas+1 =>
    if SA_is_node_arithmetic_operator topNode then
      let leftTerm := match topNode.leftNode with
        | some l => SA_evaluate_simple_term gas expectedType l table
        | none => nullRep
      let rightTerm := match topNode.rightNode with
        | some r => SA_evaluate_simple_term gas expectedType r table
        | none => nullRep
      if leftTerm.status = .ERROR then leftTerm
      else if rightTerm.status = .ERROR then rightTerm
      else nullRep
    else SA_evaluate_term_side gas expectedType topNode table
termination_by structural gas

/-- C `SA_evaluate_term_side`. -/
def SA_evaluate_term_side (gas : Nat) (expectedType : VarDec) (node : Node)
    (table : Option SemanticTable) : SemanticReport :=
  match gas with
  | 0 => nullRep
  | gas+1 =>
    let init : VarDec := { type := .CUSTOM, dimension := 0, classType := none, constant := false }
    let st : SemanticReport × VarDec × Option Node :=
      match node.type with
      | .NUMBER_NODE | .FLOAT_NODE =>
        (nullRep, SA_convert_identifier_to_VarType node, some node)
      | .NULL_NODE => (nullRep, nullDec, some node)
      | .STRING_NODE => (nullRep, { init with type := .STRING }, some node)
      | .CHAR_ARRAY_NODE =>
        -- 3 for one letter plus the two quotation marks
        if node.value.length > 3 then (nullRep, { init with type := .STRING }, some node)
        else (nullRep, { init with type := .CHAR }, some node)
      | .MEM_CLASS_ACC_NODE | .IDEN_NODE | .FUNCTION_CALL_NODE =>
        let rep := SA_evaluate_member_access gas node table
        if rep.status = .ERROR then (rep, init, some node)
        else
          let node2 := if node.type = .MEM_CLASS_ACC_NODE then node.leftNode else some node
          (nullRep, rep.dec, node2)
      | .BOOL_NODE => (nullRep, { init with type := .BOOLEAN }, some node)
      | _ => (nullRep, init, some node)
    if st.1.status = .ERROR then st.1
    else
      let predictedType := st.2.1
      if SA_are_VarTypes_equal expectedType predictedType false = false then
        SA_create_expected_got_report expectedType predictedType st.2.2
      else SA_create_semantic_report predictedType .SUCCESS none .NONE
termination_by structural gas

/-- C `SA_evaluate_member_access`. -/
def SA_evaluate_member_access (gas : Nat) (topNode : Node)
    (table : Option SemanticTable) : SemanticReport :=
  match gas with
  | 0 => nullRep
  | gas+1 =>
    let rep :=
      if topNode.type = .MEM_CLASS_ACC_NODE then
        let topScope := match topNode.leftNode with
          | some l => SA_get_next_table_with_declaration l table
          | none => none
        SA_check_non_restricted_member_access gas topNode table topScope
      else
        let topScope := SA_get_next_table_with_declaration topNode table
        SA_check_restricted_member_access gas (some topNode) table topScope
    if rep.status = .ERROR then rep
    else SA_create_semantic_report rep.dec .SUCCESS none .NONE
termination_by structural gas

/-- C `SA_check_non_restricted_member_access` (wrapper starting the walk at
the access root with the initial scope). -/
def SA_check_non_restricted_member_access (gas : Nat) (node : Node)
    (table topScope : Option SemanticTable) : SemanticReport :=
  match gas with
  | 0 => nullRep
  | gas+1 =>
    SA_non_restricted_walk gas table topScope (some node) topScope
      { type := .CUSTOM, dimension := 0, classType := none, constant := false }
termination_by structural gas

/-- Loop of C `SA_check_non_restricted_member_access`: each accessor node's
`leftNode` is resolved in the current receiver scope, then the walk follows
`rightNode`. -/
def SA_non_restricted_walk (gas : Nat) (table topScope : Option SemanticTable)
    (cacheNode : Option Node) (currentScope : Option SemanticTable)
    (retType : VarDec) : SemanticReport :=
  match gas with
  | 0 => nullRep
  | gas+1 =>
    match cacheNode with
    | none => SA_create_semantic_report retType .SUCCESS none .NONE
    | some cn =>
      let entry := SA_get_entry_if_available cn.leftNode currentScope
      let resMemRep := SA_check_restricted_member_access gas cn.leftNode table currentScope
      match entry.entry with
      | none => SA_create_semantic_report nullDec .ERROR cn.leftNode .NOT_DEFINED_EXCEPTION
      | some e =>
        if resMemRep.status = .ERROR then resMemRep
        else if e.internalType = .EXTERNAL then
          SA_create_semantic_report externalDec .SUCCESS none .NONE
        else
          let checkRes := SA_execute_access_type_checking (some cn) currentScope topScope
          if checkRes.status = .ERROR then checkRes
          else SA_non_restricted_walk gas table topScope cn.rightNode e.reference resMemRep.dec
termination_by structural gas

/-- C `SA_check_restricted_member_access`. -/
def SA_check_restricted_member_access (gas : Nat) (node : Option Node)
    (table topScope : Option SemanticTable) : SemanticReport :=
  match gas with
  | 0 => nullRep
  | gas+1 =>
    let entry := SA_get_entry_if_available node topScope
    match entry.entry, node with
    | none, _ => SA_create_semantic_report nullDec .ERROR node .NOT_DEFINED_EXCEPTION
    | some _, none => SA_create_semantic_report nullDec .ERROR node .NOT_DEFINED_EXCEPTION
    | some e, some cn =>
      let retType := e.dec
      let st : SemanticReport × VarDec :=
        if cn.type = .FUNCTION_CALL_NODE then
          let rep := SA_evaluate_function_call gas cn (some e) table .FNC_CALL
          if rep.status = .ERROR then (rep, retType) else (nullRep, rep.dec)
        else (nullRep, retType)
      if st.1.status = .ERROR then st.1
      else
        let arrayRes := SA_handle_array_accesses gas st.2 cn topScope
        if arrayRes.2.status = .ERROR then arrayRes.2
        else SA_create_semantic_report arrayRes.1 .SUCCESS none .NONE
termination_by structural gas

/-- C `SA_handle_array_accesses`: one `dimension` decrement per chain node;
the negative check runs only after the whole chain was processed. -/
def SA_handle_array_accesses (gas : Nat) (currentType : VarDec)
    (arrayAccStart : Node) (table : Option SemanticTable) : VarDec × SemanticReport :=
  match gas with
  | 0 => (currentType, nullRep)
  | gas+1 =>
    match arrayAccStart.leftNode with
    | none => (currentType, nullRep)
    | some l =>
      if l.type ≠ .ARRAY_ACCESS_NODE then (currentType, nullRep)
      else SA_array_access_walk gas (some l) currentType (some arrayAccStart) table
termination_by structural gas

/-- Loop of C `SA_handle_array_accesses` (`errorAnchor` is the access root
used as the error node of the dimension diagnostic). -/
def SA_array_access_walk (gas : Nat) (cache : Option Node) (currentType : VarDec)
    (errorAnchor : Option Node) (table : Option SemanticTable) : VarDec × SemanticReport :=
  match gas with
  | 0 => (currentType, nullRep)
  | gas+1 =>
    match cache with
    | none =>
      if currentType.dimension < 0 then
        (currentType, SA_create_semantic_report nullDec .ERROR errorAnchor
          .NO_SUCH_ARRAY_DIMENSION_EXCEPTION)
      else (currentType, nullRep)
    | some c =>
      let termRep := match c.leftNode with
        | some idx =>
          SA_evaluate_simple_term gas
            { type := .INTEGER, dimension := 0, classType := none, constant := false } idx table
        | none => nullRep
      if termRep.status = .ERROR then (currentType, termRep)
      else SA_array_access_walk gas c.rightNode
        { currentType with dimension := currentType.dimension - 1 } errorAnchor table
termination_by structural gas

/-- C `SA_evaluate_function_call`. -/
def SA_evaluate_function_call (gas : Nat) (topNode : Node)
    (functionEntry : Option SemanticEntry) (callScopeTable : Option SemanticTable)
    (fnccType : FunctionCallType) : SemanticReport :=
  match gas with
  | 0 => nullRep
  | gas+1 =>
    match functionEntry, callScopeTable with
    | none, _ => nullRep
    | _, none => nullRep
    | some fe, some cst =>
      let ref := fe.reference
      let preCheck := SA_execute_function_call_precheck ref topNode fnccType
      if preCheck.status = .ERROR then preCheck
      else
        let modCheck := if fnccType = .FNC_CALL then
            SA_evaluate_modifier ref fe.visibility topNode (some cst)
          else nullRep
        if modCheck.status = .ERROR then modCheck
        else
          let actualParams := SA_get_node_param_count topNode
          let strictCheck := if fnccType = .FNC_CALL then false else true
          let loopRes := SA_fc_params_loop gas topNode ref strictCheck fnccType actualParams 0
          if loopRes.status = .ERROR then loopRes
          else SA_create_semantic_report fe.dec .SUCCESS none .NONE
termination_by structural gas

/-- Per-argument loop of C `SA_evaluate_function_call`: argument `i` is
checked against parameter `i` under the selected strictness (the C passes
`ref` as the evaluation scope of the arguments). -/
def SA_fc_params_loop (gas : Nat) (topNode : Node) (ref : Option SemanticTable)
    (strictCheck : Bool) (fnccType : FunctionCallType) (actualParams i : Nat) : SemanticReport :=
  match gas with
  | 0 => nullRep
  | gas+1 =>
    if i < actualParams then
      let currentNode := topNode.details.getD i none
      let currentEntryParam := match ref with
        | some r => L_get_item r.paramList i
        | none => none
      let idenRes := SA_execute_identifier_analysis gas currentNode ref currentEntryParam fnccType
      if idenRes.1.status = .ERROR then idenRes.1
      else
        let currentNodeType := idenRes.2
        let paramDec := (currentEntryParam.map SemanticEntry.dec).getD nullDec
        if SA_are_VarTypes_equal paramDec currentNodeType strictCheck = false then
          let errorNode := match currentNode with
            | some cn => if cn.type = .MEM_CLASS_ACC_NODE then cn.leftNode else some cn
            | none => none
          SA_create_expected_got_report paramDec currentNodeType errorNode
        else SA_fc_params_loop gas topNode ref strictCheck fnccType actualParams (i+1)
    else nullRep
termination_by structural gas

/-- C `SA_execute_identifier_analysis`: returns the report together with the
value written through the `currentNodeType` pointer (which stays at the
caller's `{CUSTOM, 0}` when an error occurs first). -/
def SA_execute_identifier_analysis (gas : Nat) (currentNode : Option Node)
    (callScopeTable : Option SemanticTable) (currentEntryParam : Option SemanticEntry)
    (fnccType : FunctionCallType) : SemanticReport × VarDec :=
  match gas with
  | 0 => (nullRep, { type := .CUSTOM, dimension := 0, classType := none, constant := false })
  | gas+1 =>
    let init : VarDec := { type := .CUSTOM, dimension := 0, classType := none, constant := false }
    match currentNode with
    | none => (nullRep, init)
    | some cn =>
      match fnccType with
      | .FNC_CALL =>
        let paramDec := (currentEntryParam.map SemanticEntry.dec).getD nullDec
        let rep :=
          if cn.type = .MEM_CLASS_ACC_NODE || cn.type = .FUNCTION_CALL_NODE then
            SA_evaluate_member_access gas cn callScopeTable
          else SA_evaluate_simple_term gas paramDec cn callScopeTable
        if rep.status = .ERROR then (rep, init)
        else (nullRep, rep.dec)
      | .CONSTRUCTOR_CALL | .CONSTRUCTOR_CHECK_CALL =>
        let dec := if cn.details.isEmpty = false && cn.detailsCount > 0 then
            SA_get_VarType (cn.details.getD 0 none) false
          else init
        if dec.type = .CUSTOM && fnccType = .CONSTRUCTOR_CHECK_CALL then
          let paramDec := (currentEntryParam.map SemanticEntry.dec).getD nullDec
          let termRep := SA_evaluate_simple_term gas paramDec cn callScopeTable
          if termRep.status = .ERROR then (termRep, paramDec)
          else (nullRep, paramDec)
        else (nullRep, dec)
termination_by structural gas

/-- C `SA_contains_constructor_of_type`. -/
def SA_contains_constructor_of_type (gas : Nat) (classTable : Option SemanticTable)
    (paramHolder : Option Node) (fncctype : FunctionCallType) : SemanticReport :=
  match gas with
  | 0 => SA_create_semantic_report nullDec .NA none .NONE
  | gas+1 =>
    match classTable, paramHolder with
    | none, _ => SA_create_semantic_report nullDec .NA none .NONE
    | _, none => SA_create_semantic_report nullDec .NA none .NONE
    | some ct, some ph =>
      SA_contains_ctor_loop gas ct ph fncctype (SA_get_node_param_count ph) 0

/-- Entry loop of C `SA_contains_constructor_of_type`: skip entries that are
not constructor parameters or whose reference's parameter count differs,
then a successful strict function-call check means an equal constructor was
found. -/
def SA_contains_ctor_loop (gas : Nat) (classTable : SemanticTable) (paramHolder : Node)
    (fncctype : FunctionCallType) (actualNodeParamCount i : Nat) : SemanticReport :=
  match gas with
  | 0 => SA_create_semantic_report nullDec .NA none .NONE
  | gas+1 =>
    if i < classTable.paramList.length then
      match L_get_item classTable.paramList i with
      | none => SA_contains_ctor_loop gas classTable paramHolder fncctype actualNodeParamCount (i+1)
      | some entry =>
        if entry.dec.type ≠ .CONSTRUCTOR_PARAM then
          SA_contains_ctor_loop gas classTable paramHolder fncctype actualNodeParamCount (i+1)
        else
          match entry.reference with
          | none => SA_contains_ctor_loop gas classTable paramHolder fncctype actualNodeParamCount (i+1)
          | some entryTable =>
            if entryTable.paramList.length ≠ actualNodeParamCount then
              SA_contains_ctor_loop gas classTable paramHolder fncctype actualNodeParamCount (i+1)
            else
              let fncCallRep := SA_evaluate_function_call gas paramHolder (some entry)
                  (some classTable) fncctype
              if fncCallRep.status = .ERROR then
                SA_contains_ctor_loop gas classTable paramHolder fncctype actualNodeParamCount (i+1)
              else
                { fncCallRep with status := .SUCCESS }
    else SA_create_semantic_report nullDec .NA none .NONE
termination_by structural gas

/-- C `SA_evaluate_assignment`. -/
def SA_evaluate_assignment (gas : Nat) (expectedType : VarDec) (topNode : Node)
    (table : Option SemanticTable) : SemanticReport :=
  match gas with
  | 0 => nullRep
  | gas+1 =>
    let mainTable := SA_get_next_table_of_type table .MAIN
    let possibleEnumEntry := SA_get_entry_if_available (some topNode) mainTable
    match possibleEnumEntry.entry with
    | some e =>
      if e.internalType = .ENUM then SA_evaluate_member_access gas topNode mainTable
      else SA_evaluate_simple_term gas expectedType topNode table
    | none => SA_evaluate_simple_term gas expectedType topNode table

/-- C `SA_add_normal_variable_to_table`: returns the updated scope table and
the emitted diagnostics. -/
def SA_add_normal_variable_to_table (gas : Nat) (table : SemanticTable)
    (varNode : Node) : SemanticTable × List SemanticReport :=
  match gas with
  | 0 => (table, [])
  | gas+1 =>
    if table.type = .ENUM then
      (table, [SA_create_semantic_report nullDec .ERROR (some varNode)
        .STATEMENT_MISPLACEMENT_EXCEPTION])
    else
      let name := varNode.value
      let vis := SA_get_visibility varNode.leftNode
      let constant := if varNode.type = .VAR_NODE then false else true
      let type := SA_get_VarType (varNode.details.getD 0 none) constant
      let actualTable := if table.type = .TRY then table.parent else some table
      if SA_is_obj_already_defined name actualTable then
        (table, [SA_create_semantic_report nullDec .ERROR (some varNode)
          .ALREADY_DEFINED_EXCEPTION])
      else
        let assignmentRep := match varNode.rightNode with
          | some rn => SA_evaluate_assignment gas type rn actualTable
          | none => nullRep
        if assignmentRep.status = .ERROR then (table, [assignmentRep])
        else
          let entry := SA_create_semantic_entry name type vis .VARIABLE none
          (table.withSymbolTable (HM_add_entry entry table.symbolTable), [])

/-- C `SA_add_constructor_to_table`.  The C appends the entry and then
analyzes the constructor body through the aliased scope-table pointer; with
value semantics the body is analyzed first and the resulting scope table is
stored in the appended entry (the body's parent chain sees the class table
before the insertion). -/
def SA_add_constructor_to_table (gas : Nat) (table : SemanticTable)
    (constructorNode : Node) : SemanticTable × List SemanticReport :=
  match gas with
  | 0 => (table, [])
  | gas+1 =>
    if table.type ≠ .CLASS then
      (table, [SA_create_semantic_report nullDec .ERROR (some constructorNode)
        .STATEMENT_MISPLACEMENT_EXCEPTION])
    else
      let hasConstructor := SA_contains_constructor_of_type gas (some table)
          (some constructorNode) .CONSTRUCTOR_CALL
      if hasConstructor.status = .SUCCESS then
        (table, [SA_create_semantic_report nullDec .ERROR (some constructorNode)
          .ALREADY_DEFINED_EXCEPTION])
      else
        let cust : VarDec := { type := .CUSTOM, dimension := 0, classType := none, constant := false }
        let constructDec : VarDec :=
          { type := .CONSTRUCTOR_PARAM, dimension := 0, classType := none, constant := false }
        let params := SA_get_params constructorNode cust
        let scopeTable := SA_create_new_scope_table constructorNode.rightNode .CONSTRUCTOR
            (some table) params
        let managed := match constructorNode.rightNode with
          | some rn => SA_manage_runnable gas rn scopeTable
          | none => (scopeTable, [])
        let entry := SA_create_semantic_entry (cs "Constructor") constructDec .GLOBAL
            .CONSTRUCTOR (some managed.1)
        (table.withParamList (L_add_item table.paramList entry), managed.2)
termination_by structural gas

/-- C `SA_manage_runnable` restricted to the statement kinds of the embedded
`NodeType` fragment (the remaining C dispatch arms concern node kinds that
are not modelled here; unknown kinds fall into the C `default: continue`). -/
def SA_manage_runnable (gas : Nat) (root : Node) (table : SemanticTable) :
    SemanticTable × List SemanticReport :=
  match gas with
  | 0 => (table, [])
  | gas+1 => SA_manage_runnable_loop gas root.details table []
termination_by structural gas

/-- Statement loop of C `SA_manage_runnable`. -/
def SA_manage_runnable_loop (gas : Nat) (details : List (Option Node))
    (table : SemanticTable) (acc : List SemanticReport) :
    SemanticTable × List SemanticReport :=
  match gas with
  | 0 => (table, acc)
  | gas+1 =>
    match details with
    | [] => (table, acc)
    | d :: rest =>
      let st : SemanticTable × List SemanticReport :=
        match d with
        | none => (table, [])
        | some currentNode =>
          match currentNode.type with
          | .VAR_NODE | .CONST_NODE =>
            SA_add_normal_variable_to_table gas table currentNode
          | .CLASS_CONSTRUCTOR_NODE =>
            SA_add_constructor_to_table gas table currentNode
          | .BREAK_STMT_NODE | .CONTINUE_STMT_NODE =>
            (table, SA_check_break_or_continue_to_table table currentNode)
          | _ => (table, [])
      SA_manage_runnable_loop gas rest st.1 (acc ++ st.2)
termination_by structural gas

end

/-! ## Verified properties

Support definitions (concrete inputs and spec-side predicates) followed by
the theorems.  Concrete parse inputs place the inspected construct at its
statement position: the builders are invoked by the statement constructors,
so a preceding token (the `=` of the enclosing assignment) always exists. -/

/-- An identifier token. -/
def idTok (s : String) : TOKEN := { type := .IDENTIFIER, value := cs s }

/-- An identifier leaf node. -/
def idLeaf (s : String) : Node := Node.mk (cs s) .IDEN_NODE none none []

/-- A binary node with both children present. -/
def binNode (v : String) (t : NodeType) (l r : Node) : Node :=
  Node.mk (cs v) t (some l) (some r) []

def eqTok : TOKEN := { type := .OP_EQUALS, value := cs "=" }
def semiTok : TOKEN := { type := .OP_SEMICOLON, value := cs ";" }
def plusTok : TOKEN := { type := .OP_PLUS, value := cs "+" }
def mulTok : TOKEN := { type := .OP_MULTIPLY, value := cs "*" }
def divTok : TOKEN := { type := .OP_DIVIDE, value := cs "/" }
def modTok : TOKEN := { type := .OP_MODULU, value := cs "%" }

/-- The token array of the statement fragment `= a ∘₁ b ∘₂ c ;`; the term
itself spans indices 1 to 5. -/
def termToks (o1 o2 : TOKEN) : List TOKEN :=
  [eqTok, idTok "a", o1, idTok "b", o2, idTok "c", semiTok]

/-- C2: in every simple arithmetic term the operators `*`, `/` and `%` bind
tighter than `+`: parsing `a + b * c` (at its statement position, term
boundary 5) yields a `+` root whose right subtree is the `*` node over `b`
and `c` — likewise with `/` and `%` in place of `*` — and parsing
`a * b + c` yields a `+` root whose left subtree is the `*` node over `a`
and `b`. -/
theorem PG_simple_term_precedence_mul_over_add :
    (PG_create_simple_term_node 60 (termToks plusTok mulTok) 1 5).node
      = some (binNode "+" .PLUS_NODE (idLeaf "a")
          (binNode "*" .MULTIPLY_NODE (idLeaf "b") (idLeaf "c"))) ∧
    (PG_create_simple_term_node 60 (termToks plusTok divTok) 1 5).node
      = some (binNode "+" .PLUS_NODE (idLeaf "a")
          (binNode "/" .DIVIDE_NODE (idLeaf "b") (idLeaf "c"))) ∧
    (PG_create_simple_term_node 60 (termToks plusTok modTok) 1 5).node
      = some (binNode "+" .PLUS_NODE (idLeaf "a")
          (binNode "%" .MODULO_NODE (idLeaf "b") (idLeaf "c"))) ∧
    (PG_create_simple_term_node 60 (termToks mulTok plusTok) 1 5).node
      = some (binNode "+" .PLUS_NODE
          (binNode "*" .MULTIPLY_NODE (idLeaf "a") (idLeaf "b")) (idLeaf "c")) :=
  ⟨rfl, rfl, rfl, rfl⟩

/-- The token array of the parenthesis-free chained condition
`a and b or c ;` over bare identifier operands. -/
def bareCondToks : List TOKEN :=
  [idTok "a", { type := .KW_AND, value := cs "and" }, idTok "b",
   { type := .KW_OR, value := cs "or" }, idTok "c", semiTok]

/-- C3 counterexample: for `a and b or c` the root of the built tree is the
AND node, not the OR node the claim requires — and the whole tree is not
`((a and b) or c)` but an AND root whose children are two IDEN-typed nodes
labelled `and` and `or` (the keyword tokens were consumed as condition
operands, and `b` was consumed twice). -/
theorem PG_chained_condition_bare_counterexample :
    ((PG_create_chained_condition_tree 60 bareCondToks 0 false).node.map Node.type
      ≠ some NodeType.OR_NODE) ∧
    (PG_create_chained_condition_tree 60 bareCondToks 0 false).node
      = some (binNode "and" .AND_NODE
          (binNode "and" .IDEN_NODE (idLeaf "a") (idLeaf "b"))
          (binNode "or" .IDEN_NODE (idLeaf "b") (idLeaf "c"))) :=
  ⟨by decide, rfl⟩

/-- The token array of the chained condition `a == b and c == d or e == f ;`
over relational leaf conditions. -/
def relCondToks : List TOKEN :=
  [idTok "a", { type := .OP_EQUALS_CONDITION, value := cs "==" }, idTok "b",
   { type := .KW_AND, value := cs "and" },
   idTok "c", { type := .OP_EQUALS_CONDITION, value := cs "==" }, idTok "d",
   { type := .KW_OR, value := cs "or" },
   idTok "e", { type := .OP_EQUALS_CONDITION, value := cs "==" }, idTok "f", semiTok]

/-- C3 (amended): when every leaf condition is a relational comparison, the
connectives `and` and `or` do have equal precedence and associate left to
right: `a == b and c == d or e == f` builds as
`((a == b and c == d) or e == f)`, the OR node at the root with the AND node
as its left child.  Bare identifier operands (see the counterexample) are
instead consumed as whole leaf conditions, which breaks the claimed shape. -/
theorem PG_chained_condition_left_assoc_relational :
    (PG_create_chained_condition_tree 60 relCondToks 0 false).node
      = some (binNode "or" .OR_NODE
          (binNode "and" .AND_NODE
            (binNode "==" .EQUALS_CONDITION_NODE (idLeaf "a") (idLeaf "b"))
            (binNode "==" .EQUALS_CONDITION_NODE (idLeaf "c") (idLeaf "d")))
          (binNode "==" .EQUALS_CONDITION_NODE (idLeaf "e") (idLeaf "f"))) := rfl

/-- The token array of the statement fragment `= a . b . c ;`; the member
access chain starts at index 1. -/
def memToks : List TOKEN :=
  [eqTok, idTok "a", { type := .OP_DOT, value := cs "." }, idTok "b",
   { type := .OP_DOT, value := cs "." }, idTok "c", semiTok]

/-- C4 counterexample: for `a.b.c` the chain is not left-deep.  The root's
left child is a childless IDEN leaf (rebuilt from the `.` token itself — no
earlier accessor is nested there, and the receiver `a` is lost), while the
root's right child is a MEMBER_ACCESS node that itself nests another
MEMBER_ACCESS node in its own right child: the accessors hang to the
right. -/
theorem PG_member_access_not_left_deep_counterexample :
    (((PG_create_member_access_tree 60 memToks 1 true).node.bind Node.leftNode).map Node.type
        = some NodeType.IDEN_NODE) ∧
    (((PG_create_member_access_tree 60 memToks 1 true).node.bind Node.leftNode).bind Node.leftNode
        = none) ∧
    (((PG_create_member_access_tree 60 memToks 1 true).node.bind Node.rightNode).map Node.type
        = some NodeType.MEMBER_ACCESS_NODE) ∧
    ((((PG_create_member_access_tree 60 memToks 1 true).node.bind Node.rightNode).bind
        Node.rightNode).map Node.type = some NodeType.MEMBER_ACCESS_NODE) :=
  ⟨rfl, rfl, rfl, rfl⟩

/-- C4 (amended): for a member-access chain with two or more accessors the
builder returns a MEM_CLASS_ACC root whose `left` holds a leaf rebuilt from
the first accessor token (for a plain identifier receiver the receiver
itself is lost) and whose `right` holds a right-deep chain of
MEMBER_ACCESS nodes: each carries its operand in `left` and the next
accessor in `right` (empty for the last), so the accessor applied first
heads the chain.  For `a.b.c` (5 tokens, all consumed): root
`MEMCLASSACC` with left the `.` leaf and right the chain `b → c`. -/
theorem PG_member_access_chain_shape :
    (PG_create_member_access_tree 60 memToks 1 true).node
      = some (Node.mk (cs "MEMCLASSACC") .MEM_CLASS_ACC_NODE
          (some (idLeaf "."))
          (some (binNode "." .MEMBER_ACCESS_NODE (idLeaf "b")
            (Node.mk (cs ".") .MEMBER_ACCESS_NODE (some (idLeaf "c")) none [])))
          []) ∧
    (PG_create_member_access_tree 60 memToks 1 true).tokensToSkip = 5 :=
  ⟨rfl, rfl⟩

/-- The `{Custom, 0}` wildcard declaration. -/
def customDec : VarDec :=
  { type := .CUSTOM, dimension := 0, classType := none, constant := false }

/-- C10: a single-quoted character-array literal evaluated inside a term has
type Char exactly when its token text (both quotes included) is at most
three characters long; every longer single-quoted literal gets type String.
Stated against a `{Custom, 0}` expected type, which the wildcard rule
accepts, so the report carries the literal's predicted type and SUCCESS. -/
theorem SA_char_array_literal_type (gas : Nat) (value : List Char)
    (l r : Option Node) (d : List (Option Node)) (table : Option SemanticTable) :
    SA_evaluate_term_side (gas+1) customDec (Node.mk value .CHAR_ARRAY_NODE l r d) table
      = SA_create_semantic_report
          { type := if value.length ≤ 3 then VarType.CHAR else VarType.STRING,
            dimension := 0, classType := none, constant := false }
          .SUCCESS none .NONE := by
  by_cases h : value.length > 3
  · have h2 : ¬ (value.length ≤ 3) := by omega
    simp [SA_evaluate_term_side, Node.type, Node.value, h, h2, nullRep,
      SA_create_semantic_report, SA_are_VarTypes_equal, SA_are_non_strict_VarTypes_equal,
      customDec]
  · have h2 : value.length ≤ 3 := by omega
    simp [SA_evaluate_term_side, Node.type, Node.value, h, h2, nullRep,
      SA_create_semantic_report, SA_are_VarTypes_equal, SA_are_non_strict_VarTypes_equal,
      customDec]

/-- C8 counterexample: Custom is not a wildcard as the second comparison
operand — an Integer of dimension 0 compared leniently against a Custom of
the same dimension yields `false`. -/
theorem SA_custom_wildcard_asymmetry_counterexample :
    SA_are_VarTypes_equal
      { type := .INTEGER, dimension := 0, classType := none, constant := false }
      customDec false = false := rfl

/-- C8 (amended): lenient equality treats Double and Float as mutually
compatible whenever their dimensions are equal, and treats Custom as a
wildcard only when the Custom type is the FIRST comparison operand: a
Custom first operand matches any second operand of equal dimension
(regardless of its type), while a Custom second operand enjoys no such
rule (see the counterexample). -/
theorem SA_lenient_equality_characterization :
    (∀ (dim : Int) (c1 c2 : Option (List Char)) (k1 k2 : Bool),
      SA_are_VarTypes_equal
          { type := .DOUBLE, dimension := dim, classType := c1, constant := k1 }
          { type := .FLOAT, dimension := dim, classType := c2, constant := k2 } false = true ∧
      SA_are_VarTypes_equal
          { type := .FLOAT, dimension := dim, classType := c1, constant := k1 }
          { type := .DOUBLE, dimension := dim, classType := c2, constant := k2 } false = true) ∧
    (∀ (t : VarDec) (c : Option (List Char)) (k : Bool),
      SA_are_VarTypes_equal
          { type := .CUSTOM, dimension := t.dimension, classType := c, constant := k }
          t false = true) := by
  refine ⟨fun dim c1 c2 k1 k2 => ⟨?_, ?_⟩, fun t c k => ?_⟩ <;>
    simp [SA_are_VarTypes_equal, SA_are_non_strict_VarTypes_equal]

/-- The scope kinds the break/continue placement walk passes through. -/
def isPassScope : ScopeType → Bool
  | .IF | .ELSE_IF | .ELSE | .TRY | .CATCH => true
  | _ => false

/-- The loop scope kinds. -/
def isLoopScope : ScopeType → Bool
  | .FOR | .WHILE | .DO | .IS => true
  | _ => false

/-- The scope types from a table outward to the root. -/
def scopeChainTypes (t : SemanticTable) : List ScopeType :=
  match t with
  | .mk _ ty _ _ parent =>
    ty :: (match parent with
           | none => []
           | some p => scopeChainTypes p)
termination_by structural t

/-- Spec-side placement predicate: walking outward and skipping the
pass-through scopes, the first scope of any other kind is a loop scope. -/
def reachesLoopFirst (l : List ScopeType) : Bool :=
  match l.dropWhile isPassScope with
  | [] => false
  | ty :: _ => isLoopScope ty

/-- The latching walk agrees with the spec-side predicate. -/
theorem SA_break_walk_eq_spec (t : SemanticTable) (m : Bool) :
    SA_is_break_or_continue_placement_valid_walk t m
      = (m || reachesLoopFirst (scopeChainTypes t)) := by
  match t with
  | .mk nm ty pl st parent =>
    match parent with
    | none =>
      cases ty <;> cases m <;> rfl
    | some p =>
      have ih := SA_break_walk_eq_spec p
      cases ty <;>
        simp [SA_is_break_or_continue_placement_valid_walk, scopeChainTypes,
          reachesLoopFirst, isPassScope, isLoopScope, List.dropWhile, ih]
termination_by structural t

/-- C7: a break or continue statement emits STATEMENT_MISPLACEMENT exactly
when walking outward through the scope chain — passing only through if,
else-if, else, try and catch scopes — fails to reach a for, while, do or is
scope before a scope of any other kind is met; when such a loop scope is
reached this way the placement is valid and no diagnostic is emitted. -/
theorem SA_break_continue_placement_correct (table : SemanticTable) (node : Node) :
    (SA_is_break_or_continue_placement_valid (some table)
        = reachesLoopFirst (scopeChainTypes table)) ∧
    (SA_check_break_or_continue_to_table table node
      = if reachesLoopFirst (scopeChainTypes table) then []
        else [SA_create_semantic_report nullDec .ERROR (some node)
          .STATEMENT_MISPLACEMENT_EXCEPTION]) := by
  have h := SA_break_walk_eq_spec table false
  simp only [Bool.false_or] at h
  refine ⟨h, ?_⟩
  rw [SA_check_break_or_continue_to_table, SA_is_break_or_continue_placement_valid, h]
  cases reachesLoopFirst (scopeChainTypes table) <;> simp

/-- The scope tables from a table outward to the root. -/
def scopeChain (t : SemanticTable) : List SemanticTable :=
  match t with
  | .mk nm ty pl st parent =>
    .mk nm ty pl st parent :: (match parent with
      | none => []
      | some p => scopeChain p)
termination_by structural t

/-- Spec-side declaration predicate: some scope of the chain holds the name
in its symbol map or its parameter list. -/
def nameDeclaredInChain (key : List Char) (t : SemanticTable) : Bool :=
  (scopeChain t).any (fun s =>
    HM_contains_key key s.symbolTable || (SA_param_list_lookup key s.paramList).isSome)

/-- The duplicate-name walk agrees with the spec-side chain predicate. -/
theorem SA_is_obj_walk_eq_chain (key : List Char) (t : SemanticTable) :
    SA_is_obj_already_defined_walk key t = nameDeclaredInChain key t := by
  match t with
  | .mk nm ty pl st parent =>
    match parent with
    | none =>
      simp [SA_is_obj_already_defined_walk, nameDeclaredInChain, scopeChain,
        SemanticTable.symbolTable, SemanticTable.paramList]
    | some p =>
      have ih := SA_is_obj_walk_eq_chain key p
      simp [SA_is_obj_already_defined_walk, nameDeclaredInChain, scopeChain,
        SemanticTable.symbolTable, SemanticTable.paramList, ih]
termination_by structural t

/-- C5 (amended): for a declaration in a scope that is neither an enum nor a
try scope, a same-name entry in the symbol map or parameter list of the
scope itself or of any enclosing scope (shadowing included) makes the
analyzer emit ALREADY_DEFINED and leave the table unchanged.  In a try
scope the walk starts at the parent scope instead, so entries recorded in
the try scope itself are not consulted (see the counterexample). -/
theorem SA_var_already_defined_in_chain (gas : Nat) (table : SemanticTable) (varNode : Node)
    (hEnum : table.type ≠ .ENUM) (hTry : table.type ≠ .TRY)
    (hDef : nameDeclaredInChain varNode.value table = true) :
    SA_add_normal_variable_to_table (gas+1) table varNode
      = (table, [SA_create_semantic_report nullDec .ERROR (some varNode)
          .ALREADY_DEFINED_EXCEPTION]) := by
  have hwalk := SA_is_obj_walk_eq_chain varNode.value table
  simp [SA_add_normal_variable_to_table, SA_is_obj_already_defined, hwalk, hDef,
    hEnum, hTry]

/-- A scope table for a `Main` body holding a variable `x`. -/
def mainTableX : SemanticTable :=
  .mk (cs "Main") .MAIN []
    [SA_create_semantic_entry (cs "x") customDec .P_GLOBAL .VARIABLE none] none

/-- A function scope under `mainTableX` with empty maps. -/
def funcScopeUnderMain : SemanticTable :=
  .mk (cs "f") .FUNCTION [] [] (some mainTableX)

/-- The declaration node `var x` (no modifier, no type annotation, no
assignment). -/
def xVarNode : Node := Node.mk (cs "x") .VAR_NODE none none []

theorem SA_var_already_defined_in_chain_witness :
    SA_add_normal_variable_to_table 5 funcScopeUnderMain xVarNode
      = (funcScopeUnderMain, [SA_create_semantic_report nullDec .ERROR (some xVarNode)
          .ALREADY_DEFINED_EXCEPTION]) :=
  SA_var_already_defined_in_chain 4 funcScopeUnderMain xVarNode
    (by decide) (by decide) (by decide)

/-- A try scope holding `x` in its own symbol map, under an empty `Main`. -/
def tryScopeWithX : SemanticTable :=
  .mk (cs "try") .TRY []
    [SA_create_semantic_entry (cs "x") customDec .P_GLOBAL .VARIABLE none]
    (some (.mk (cs "Main") .MAIN [] [] none))

/-- C5 counterexample: redeclaring `x` inside a try scope whose own symbol
map already holds `x` emits no diagnostic and inserts the duplicate — the
duplicate-name walk starts at the try scope's parent, skipping the try
scope's own entries, contrary to the claim's "current scope's symbol map or
parameter list". -/
theorem SA_var_redeclaration_in_try_counterexample :
    (SA_add_normal_variable_to_table 5 tryScopeWithX xVarNode).2 = [] ∧
    ((SA_add_normal_variable_to_table 5 tryScopeWithX xVarNode).1.symbolTable.map
        SemanticEntry.name) = [cs "x", cs "x"] :=
  ⟨rfl, rfl⟩

/-- The `{Integer, 0}` declaration the analyzer checks index terms against. -/
def intIndexDec : VarDec :=
  { type := .INTEGER, dimension := 0, classType := none, constant := false }

/-- A numeric index literal, as the builder leaves it in an array-access
node's `leftNode`. -/
def zeroIndexNode : Node := Node.mk (cs "0") .NUMBER_NODE none none []

/-- A chain of `n` array-access layers (`ARR_ACC` nodes as
`PG_create_array_access_tree` builds them), each holding the index literal
in `leftNode` and the next layer in `rightNode`. -/
def arrayAccessChain : Nat → Option Node
  | 0 => none
  | n+1 => some (Node.mk (cs "ARR_ACC") .ARRAY_ACCESS_NODE (some zeroIndexNode)
      (arrayAccessChain n) [])

/-- An accessed identifier carrying `n` array-access layers. -/
def arrayAccessOwner (name : List Char) (n : Nat) : Node :=
  Node.mk name .IDEN_NODE (arrayAccessChain n) none []

/-- A numeric index literal always checks out as an Integer term. -/
theorem SA_zero_index_eval (gas : Nat) (table : Option SemanticTable) :
    SA_evaluate_simple_term (gas+2)
        { type := .INTEGER, dimension := 0, classType := none, constant := false }
        zeroIndexNode table
      = SA_create_semantic_report
          { type := .INTEGER, dimension := 0, classType := none, constant := false }
          .SUCCESS none .NONE := rfl

/-- The array-access walk over an `n`-layer chain: `n` decrements, then the
negative check at the end of the chain. -/
theorem SA_array_walk_spec (n : Nat) :
    ∀ (gas : Nat) (d : Int) (b : VarType) (cls : Option (List Char)) (cst : Bool)
      (anchor : Option Node) (table : Option SemanticTable),
    n + 2 ≤ gas →
    SA_array_access_walk gas (arrayAccessChain n)
        { type := b, dimension := d, classType := cls, constant := cst } anchor table
      = ({ type := b, dimension := d - n, classType := cls, constant := cst },
         if d - (n : Int) < 0 then
           SA_create_semantic_report nullDec .ERROR anchor .NO_SUCH_ARRAY_DIMENSION_EXCEPTION
         else nullRep) := by
  induction n with
  | zero =>
    intro gas d b cls cst anchor table hgas
    obtain ⟨g, rfl⟩ : ∃ g, gas = g + 1 := ⟨gas - 1, by omega⟩
    rw [SA_array_access_walk.eq_def]
    simp [arrayAccessChain]
    split <;> rfl
  | succ k ih =>
    intro gas d b cls cst anchor table hgas
    obtain ⟨g, rfl⟩ : ∃ g, gas = g + 1 := ⟨gas - 1, by omega⟩
    rw [SA_array_access_walk.eq_def]
    simp only [arrayAccessChain, Node.leftNode, Node.rightNode]
    obtain ⟨g2, rfl⟩ : ∃ g2, g = g2 + 2 := ⟨g - 2, by omega⟩
    rw [SA_zero_index_eval]
    have hstat : (SA_create_semantic_report
        { type := .INTEGER, dimension := 0, classType := none, constant := false }
        .SUCCESS none .NONE).status ≠ ErrorStatus.ERROR := by decide
    rw [if_neg hstat]
    have hrec := ih (g2 + 2) (d - 1) b cls cst anchor table (by omega)
    rw [hrec]
    have hdim : d - 1 - (k : Int) = d - ((k : Int) + 1) := by ring
    rw [hdim]
    norm_num

/-- C6: each `[…]` layer decrements the accessed value's dimension by one,
and NO_SUCH_ARRAY_DIMENSION is emitted exactly when the dimension after all
layers is negative; otherwise the decremented dimension is the resulting
type's dimension and the null report is returned.  Stated for an accessed
identifier of any base type and dimension carrying `n ≥ 1` layers with
well-typed numeric indices, with enough gas for the chain. -/
theorem SA_array_access_dimension_check (n gas : Nat) (name : List Char) (b : VarType)
    (d : Int) (cls : Option (List Char)) (cst : Bool) (table : Option SemanticTable)
    (hn : 0 < n) (hgas : n + 3 ≤ gas) :
    SA_handle_array_accesses gas
        { type := b, dimension := d, classType := cls, constant := cst }
        (arrayAccessOwner name n) table
      = ({ type := b, dimension := d - n, classType := cls, constant := cst },
         if d - (n : Int) < 0 then
           SA_create_semantic_report nullDec .ERROR (some (arrayAccessOwner name n))
             .NO_SUCH_ARRAY_DIMENSION_EXCEPTION
         else nullRep) := by
  obtain ⟨g, rfl⟩ : ∃ g, gas = g + 1 := ⟨gas - 1, by omega⟩
  obtain ⟨k, rfl⟩ : ∃ k, n = k + 1 := ⟨n - 1, by omega⟩
  rw [SA_handle_array_accesses.eq_def]
  simp only [arrayAccessOwner, Node.leftNode, arrayAccessChain, Node.type]
  rw [if_neg (by simp)]
  exact SA_array_walk_spec (k + 1) g d b cls cst
    (some (arrayAccessOwner name (k + 1))) table (by omega)

theorem SA_array_access_dimension_check_witness :
    SA_handle_array_accesses 9
        { type := .INTEGER, dimension := 1, classType := none, constant := false }
        (arrayAccessOwner (cs "arr") 2) none
      = ({ type := .INTEGER, dimension := -1, classType := none, constant := false },
         SA_create_semantic_report nullDec .ERROR (some (arrayAccessOwner (cs "arr") 2))
           .NO_SUCH_ARRAY_DIMENSION_EXCEPTION) := by
  have h := SA_array_access_dimension_check 2 9 (cs "arr") .INTEGER 1 none false none
      (by norm_num) (by norm_num)
  rw [h]
  norm_num

/-- The string-scanning loop stops exactly at the first unescaped closing
quote: with the closing quote at `j` and every quote strictly between `pos`
and `j` escaped, the loop started at offset `len` returns `j - pos`. -/
theorem skip_string_loop_spec (buffer : List Char) (bufferLength pos tokenNumber j : Nat)
    (hclose : bget buffer j = '"')
    (hnoesc : bget buffer (j-1) ≠ '\\')
    (hfirst : ∀ m, m < j → pos < m → (bget buffer m ≠ '"' ∨ bget buffer (m-1) = '\\'))
    (hbound : tokenNumber + (j - pos) < bufferLength) :
    ∀ (gas len : Nat), 1 ≤ len → pos + len ≤ j → (j - pos - len) + 1 ≤ gas →
    skip_string_loop buffer bufferLength pos tokenNumber len gas = j - pos := by
  intro gas
  induction gas with
  | zero => intro len h1 h2 h3; omega
  | succ g ih =>
    intro len h1 h2 h3
    simp only [skip_string_loop]
    by_cases hend : pos + len = j
    · rw [hend]
      have hguard : tokenNumber + len < bufferLength := by omega
      simp [hclose, hnoesc, hguard]
      omega
    · have hlt : pos + len < j := by omega
      have hguard : tokenNumber + len < bufferLength := by omega
      have hcond : (decide (tokenNumber + len < bufferLength)
          && (decide (bget buffer (pos + len) ≠ '"')
              || decide (bget buffer (pos + len - 1) = '\\'))) = true := by
        rcases hfirst (pos + len) hlt (by omega) with hc | hc <;> simp [hguard, hc]
      rw [if_pos hcond]
      exact ih (len + 1) (by omega) (by omega) (by omega)

/-- C9: once a double-quoted string begins at `pos`, no token boundaries
apply until the matching unescaped closing quote at `j` (a `"` whose
immediately preceding character is `\` does not terminate the scan): the
scanner returns the full distance `j - pos`, and one sizing-pass step on the
opening quote records exactly ONE token for the whole string — quotes
included — and resumes right after the closing quote, leaving the token
number incremented once.  (`hbound` reflects the C loop guard, which
compares the token number plus the scanned length against the buffer
length.) -/
theorem lexer_string_single_token (buffer : List Char)
    (bufferLength pos tokenNumber j gas : Nat) (sizes : List Nat)
    (hij : pos < j)
    (hclose : bget buffer j = '"')
    (hnoesc : bget buffer (j-1) ≠ '\\')
    (hfirst : ∀ m, m < j → pos < m → (bget buffer m ≠ '"' ∨ bget buffer (m-1) = '\\'))
    (hbound : tokenNumber + (j - pos) < bufferLength)
    (hin : pos < bufferLength)
    (hquote : bget buffer pos = '"') :
    skip_string buffer bufferLength pos tokenNumber = j - pos ∧
    get_minimum_token_number_loop buffer bufferLength pos tokenNumber sizes (gas+1)
      = get_minimum_token_number_loop buffer bufferLength (j+1) (tokenNumber+1)
          (sizes ++ [(j - pos) + 2]) gas := by
  have hskip : skip_string buffer bufferLength pos tokenNumber = j - pos := by
    rw [skip_string]
    exact skip_string_loop_spec buffer bufferLength pos tokenNumber j hclose hnoesc
      hfirst hbound (bufferLength + 1) 1 (by omega) (by omega) (by omega)
  refine ⟨hskip, ?_⟩
  have hslash : bget buffer pos ≠ '/' := by rw [hquote]; decide
  simp only [get_minimum_token_number_loop]
  rw [if_pos hin]
  rw [if_neg (by simp [hslash])]
  rw [if_pos hquote, hskip]
  have harith : pos + (j - pos) + 1 = j + 1 := by omega
  rw [harith]

/-- The 6-byte source `"a\"b"`: a string literal containing an escaped
quote, opened at 0 and closed at 5. -/
def escStrBuf : List Char := ['"', 'a', '\\', '"', 'b', '"']

theorem lexer_string_single_token_witness :
    skip_string escStrBuf 6 0 0 = 5 ∧
    get_minimum_token_number_loop escStrBuf 6 0 0 [] 8
      = get_minimum_token_number_loop escStrBuf 6 6 1 [7] 7 :=
  lexer_string_single_token escStrBuf 6 0 0 5 7 []
    (by decide) (by decide) (by decide) (by decide) (by decide) (by decide) (by decide)

/-- The declared type of a constructor parameter node, as the analyzer reads
it in a CONSTRUCTOR_CALL identifier analysis: the `details[0]` type
annotation, `{Custom, 0}` when absent. -/
def ctorNodeParamDec (p : Node) : VarDec :=
  if p.details.isEmpty = false && p.detailsCount > 0 then
    SA_get_VarType (p.details.getD 0 none) false
  else customDec

/-- The declared parameter types of a constructor declaration node, in
order (a NULL details slot reads as `{Custom, 0}`). -/
def ctorNodeParamDecs (n : Node) : List VarDec :=
  n.details.map (fun d => match d with
    | some p => ctorNodeParamDec p
    | none => customDec)

/-- Pointwise strict equality of two parameter-type lists, declared
parameter side first; `false` for lists of different lengths. -/
def decsStrictEqual : List VarDec → List VarDec → Bool
  | [], [] => true
  | a :: as, b :: bs => SA_are_strict_VarTypes_equal a b && decsStrictEqual as bs
  | _, _ => false

/-- Spec-side overload predicate: the class table already holds a
constructor entry whose reference's parameter types strictly match the new
declaration's parameter types, in order and count. -/
def hasStrictCtorMatch (table : SemanticTable) (n : Node) : Bool :=
  table.paramList.any (fun e =>
    e.dec.type == VarType.CONSTRUCTOR_PARAM &&
    match e.reference with
    | some ref => decsStrictEqual (ref.paramList.map SemanticEntry.dec) (ctorNodeParamDecs n)
    | none => false)

theorem decsStrictEqual_length_ne {a b : List VarDec} (h : a.length ≠ b.length) :
    decsStrictEqual a b = false := by
  induction a generalizing b with
  | nil =>
    cases b with
    | nil => simp at h
    | cons y ys => rfl
  | cons x xs ih =>
    cases b with
    | nil => rfl
    | cons y ys =>
      have h2 : xs.length ≠ ys.length := by
        simp only [List.length_cons] at h
        omega
      simp [decsStrictEqual, ih h2]

/-- When every details slot holds a non-runnable node, the counted
parameters are exactly the details slots. -/
theorem SA_get_node_param_count_aux_eq_length (l : List (Option Node))
    (hdet : ∀ d ∈ l, ∃ p, d = some p ∧ p.type ≠ NodeType.RUNNABLE_NODE) :
    SA_get_node_param_count_aux l = l.length := by
  induction l with
  | nil => rfl
  | cons d rest ih =>
    obtain ⟨p, rfl, hpt⟩ := hdet d (List.mem_cons_self d rest)
    simp only [SA_get_node_param_count_aux]
    rw [if_neg hpt]
    simp [ih (fun x hx => hdet x (List.mem_cons_of_mem _ hx))]

/-- In a CONSTRUCTOR_CALL identifier analysis the report is the null report
and the computed type is the parameter node's declared type. -/
theorem SA_ctor_param_iden_analysis (gas : Nat) (d : Option Node)
    (scope : Option SemanticTable) (entry : Option SemanticEntry) :
    SA_execute_identifier_analysis (gas+1) d scope entry .CONSTRUCTOR_CALL
      = (nullRep, match d with
          | some p => ctorNodeParamDec p
          | none => customDec) := by
  cases d with
  | none => rfl
  | some p =>
    simp [SA_execute_identifier_analysis, ctorNodeParamDec, customDec]

/-- The strict per-argument loop of a constructor-call check: its status is
SUCCESS exactly when the declared parameter types from position `i` on
strictly match the node parameter types from position `i` on. -/
theorem SA_fc_params_loop_ctor_spec (n : Node) (ref : SemanticTable)
    (hdet : ∀ d ∈ n.details, ∃ p, d = some p ∧ p.type ≠ NodeType.RUNNABLE_NODE)
    (hlen : ref.paramList.length = n.details.length) :
    ∀ (gas i : Nat), n.details.length - i + 1 ≤ gas →
    (SA_fc_params_loop gas n (some ref) true .CONSTRUCTOR_CALL n.details.length i).status
      = if decsStrictEqual ((ref.paramList.map SemanticEntry.dec).drop i)
            ((ctorNodeParamDecs n).drop i) then ErrorStatus.SUCCESS else ErrorStatus.ERROR := by
  intro gas
  induction gas with
  | zero => intro i hg; omega
  | succ g ih =>
    intro i hg
    by_cases hi : i < n.details.length
    · have hiP : i < ref.paramList.length := by omega
      have hgetD : n.details.getD i none = n.details[i] :=
        List.getD_eq_getElem n.details none hi
      obtain ⟨p, hp, hpt⟩ := hdet (n.details[i]) (List.getElem_mem hi)
      obtain ⟨g2, rfl⟩ : ∃ g2, g = g2 + 1 := ⟨g - 1, by omega⟩
      have hitem : L_get_item ref.paramList i = some (ref.paramList[i]) := by
        simp [L_get_item, List.get?_eq_getElem?, List.getElem?_eq_getElem hiP]
      have hdropP : (ref.paramList.map SemanticEntry.dec).drop i
          = (ref.paramList[i]).dec :: (ref.paramList.map SemanticEntry.dec).drop (i+1) := by
        rw [List.drop_eq_getElem_cons (by simpa using hiP)]
        simp
      have hdropC : (ctorNodeParamDecs n).drop i
          = ctorNodeParamDec p :: (ctorNodeParamDecs n).drop (i+1) := by
        have hiC : i < (ctorNodeParamDecs n).length := by
          simpa [ctorNodeParamDecs] using hi
        rw [List.drop_eq_getElem_cons hiC]
        simp [ctorNodeParamDecs, hp]
      rw [SA_fc_params_loop.eq_def]
      simp only [hgetD, hp, hitem]
      rw [if_pos hi]
      rw [SA_ctor_param_iden_analysis]
      rw [hdropP, hdropC]
      by_cases hs : SA_are_strict_VarTypes_equal (ref.paramList[i]).dec (ctorNodeParamDec p)
      · simp only [decsStrictEqual, hs, Bool.true_and]
        simp [SA_are_VarTypes_equal, hs, nullRep, SA_create_semantic_report]
        rw [ih (i+1) (by omega)]
      · have hs2 : SA_are_strict_VarTypes_equal (ref.paramList[i]).dec (ctorNodeParamDec p)
            = false := by simpa using hs
        simp [SA_are_VarTypes_equal, hs2, decsStrictEqual, nullRep,
          SA_create_semantic_report, SA_create_expected_got_report]
    · have hle : ref.paramList.length ≤ i := by omega
      have hle2 : n.details.length ≤ i := by omega
      have hdP : (ref.paramList.map SemanticEntry.dec).drop i = [] :=
        List.drop_eq_nil_of_le (by simpa using hle)
      have hdC : (ctorNodeParamDecs n).drop i = [] :=
        List.drop_eq_nil_of_le (by simpa [ctorNodeParamDecs] using hle2)
      rw [hdP, hdC]
      simp [SA_fc_params_loop.eq_def, hi, decsStrictEqual, nullRep, SA_create_semantic_report]

/-- A constructor-call type check against a well-formed constructor entry
of equal parameter count: SUCCESS exactly when the entry's parameter types
strictly match the declaration's, in order. -/
theorem SA_evaluate_function_call_ctor_spec (gas : Nat) (n : Node) (e : SemanticEntry)
    (ref ct : SemanticTable)
    (hdet : ∀ d ∈ n.details, ∃ p, d = some p ∧ p.type ≠ NodeType.RUNNABLE_NODE)
    (href : e.reference = some ref) (hreft : ref.type = .CONSTRUCTOR)
    (hntype : n.type = .CLASS_CONSTRUCTOR_NODE)
    (hlen : ref.paramList.length = n.details.length)
    (hg : n.details.length + 2 ≤ gas) :
    (SA_evaluate_function_call gas n (some e) (some ct) .CONSTRUCTOR_CALL).status
      = if decsStrictEqual (ref.paramList.map SemanticEntry.dec) (ctorNodeParamDecs n)
        then ErrorStatus.SUCCESS else ErrorStatus.ERROR := by
  obtain ⟨g, rfl⟩ : ∃ g, gas = g + 1 := ⟨gas - 1, by omega⟩
  have hpre : SA_execute_function_call_precheck (some ref) n .CONSTRUCTOR_CALL = nullRep := by
    simp [SA_execute_function_call_precheck, Node.detailsCount, hlen, hntype, hreft]
  have hcount : SA_get_node_param_count n = n.details.length := by
    rw [SA_get_node_param_count]
    exact SA_get_node_param_count_aux_eq_length n.details hdet
  have hloop := SA_fc_params_loop_ctor_spec n ref hdet hlen g 0 (by omega)
  rw [List.drop_zero, List.drop_zero] at hloop
  rw [SA_evaluate_function_call.eq_def]
  by_cases hd : decsStrictEqual (ref.paramList.map SemanticEntry.dec) (ctorNodeParamDecs n)
  · simp [href, hpre, hcount, hloop, hd, nullRep, SA_create_semantic_report]
  · have hd2 : decsStrictEqual (ref.paramList.map SemanticEntry.dec) (ctorNodeParamDecs n)
        = false := by simpa using hd
    simp [href, hpre, hcount, hloop, hd2, nullRep, SA_create_semantic_report]

/-- The constructor-enumeration loop: SUCCESS exactly when some entry from
position `i` on is a constructor-parameter entry whose reference strictly
matches the declaration; NA otherwise. -/
theorem SA_contains_ctor_loop_spec (ct : SemanticTable) (n : Node)
    (hdet : ∀ d ∈ n.details, ∃ p, d = some p ∧ p.type ≠ NodeType.RUNNABLE_NODE)
    (hntype : n.type = .CLASS_CONSTRUCTOR_NODE)
    (hwf : ∀ e ∈ ct.paramList, e.dec.type = .CONSTRUCTOR_PARAM →
      ∀ ref, e.reference = some ref → ref.type = .CONSTRUCTOR) :
    ∀ (gas i : Nat), ct.paramList.length - i + n.details.length + 3 ≤ gas →
    (SA_contains_ctor_loop gas ct n .CONSTRUCTOR_CALL (SA_get_node_param_count n) i).status
      = if (ct.paramList.drop i).any (fun e =>
            e.dec.type == VarType.CONSTRUCTOR_PARAM &&
            match e.reference with
            | some ref => decsStrictEqual (ref.paramList.map SemanticEntry.dec)
                (ctorNodeParamDecs n)
            | none => false)
        then ErrorStatus.SUCCESS else ErrorStatus.NA := by
  have hcount : SA_get_node_param_count n = n.details.length := by
    rw [SA_get_node_param_count]
    exact SA_get_node_param_count_aux_eq_length n.details hdet
  intro gas
  induction gas with
  | zero => intro i hg; omega
  | succ g ih =>
    intro i hg
    simp only [hcount] at ih ⊢
    by_cases hi : i < ct.paramList.length
    · have hitem : L_get_item ct.paramList i = some (ct.paramList[i]) := by
        simp [L_get_item, List.get?_eq_getElem?, List.getElem?_eq_getElem hi]
      have hdrop : ct.paramList.drop i = ct.paramList[i] :: ct.paramList.drop (i+1) :=
        List.drop_eq_getElem_cons hi
      rw [SA_contains_ctor_loop.eq_def]
      simp only [hitem, hcount]
      rw [if_pos hi, hdrop]
      by_cases hk : (ct.paramList[i]).dec.type = VarType.CONSTRUCTOR_PARAM
      · rw [if_neg (by simp [hk])]
        cases hre : (ct.paramList[i]).reference with
        | none =>
          have hrec := ih (i+1) (by omega)
          simp only [hre, hrec, List.any_cons, hk, beq_self_eq_true, Bool.true_and,
            Bool.and_false, Bool.false_or]
        | some ref =>
          have hreft : ref.type = .CONSTRUCTOR :=
            hwf (ct.paramList[i]) (List.getElem_mem hi) hk ref hre
          by_cases hl : ref.paramList.length = n.details.length
          · have heval := SA_evaluate_function_call_ctor_spec g n (ct.paramList[i]) ref ct
              hdet hre hreft hntype hl (by omega)
            simp only [hre]
            rw [if_neg (by simp [hl])]
            by_cases hd : decsStrictEqual (ref.paramList.map SemanticEntry.dec)
                (ctorNodeParamDecs n)
            · have hstat : (SA_evaluate_function_call g n (some (ct.paramList[i])) (some ct)
                  FunctionCallType.CONSTRUCTOR_CALL).status ≠ ErrorStatus.ERROR := by
                rw [heval, hd]
                simp
              rw [if_neg hstat]
              have hpred : ((ct.paramList[i] :: ct.paramList.drop (i+1)).any (fun e =>
                  e.dec.type == VarType.CONSTRUCTOR_PARAM &&
                  match e.reference with
                  | some ref => decsStrictEqual (ref.paramList.map SemanticEntry.dec)
                      (ctorNodeParamDecs n)
                  | none => false)) = true := by
                simp only [List.any_cons, hk, beq_self_eq_true, Bool.true_and, hre, hd,
                  Bool.true_or]
              rw [hpred]
              simp
            · have hd2 : decsStrictEqual (ref.paramList.map SemanticEntry.dec)
                  (ctorNodeParamDecs n) = false := by simpa using hd
              have hstat : (SA_evaluate_function_call g n (some (ct.paramList[i])) (some ct)
                  FunctionCallType.CONSTRUCTOR_CALL).status = ErrorStatus.ERROR := by
                rw [heval, hd2]
                simp
              rw [if_pos hstat]
              have hrec := ih (i+1) (by omega)
              simp only [hrec, List.any_cons, hk, beq_self_eq_true, Bool.true_and, hre,
                hd2, Bool.false_or]
          · have hd2 : decsStrictEqual (ref.paramList.map SemanticEntry.dec)
                (ctorNodeParamDecs n) = false :=
              decsStrictEqual_length_ne (by simp [ctorNodeParamDecs]; omega)
            simp only [hre]
            rw [if_pos hl]
            have hrec := ih (i+1) (by omega)
            simp only [hrec, List.any_cons, hk, beq_self_eq_true, Bool.true_and, hre,
              hd2, Bool.false_or]
      · rw [if_pos (by simp [hk])]
        have hk2 : ((ct.paramList[i]).dec.type == VarType.CONSTRUCTOR_PARAM) = false := by
          simp [hk]
        have hrec := ih (i+1) (by omega)
        simp only [hrec, List.any_cons, hk2, Bool.false_and, Bool.false_or]
    · have hdrop : ct.paramList.drop i = [] :=
        List.drop_eq_nil_of_le (by omega)
      rw [SA_contains_ctor_loop.eq_def]
      simp only [hcount]
      rw [if_neg hi, hdrop]
      simp [SA_create_semantic_report]

/-- C1: declaring a constructor when the class table already holds a
constructor entry with the same parameter count and strictly-equal
parameter types in order emits ALREADY_DEFINED and leaves the table
unchanged; when no existing constructor matches strictly, the declaration
is inserted into the class table's parameter list as a constructor entry
carrying its managed scope table.  Stated for well-formed inputs: a class
table whose constructor-parameter entries reference constructor scope
tables, a CLASS_CONSTRUCTOR node whose details slots hold parameter nodes,
and gas dominating both list lengths. -/
theorem SA_constructor_overload_check (gas : Nat) (table : SemanticTable) (n : Node)
    (htab : table.type = .CLASS)
    (hntype : n.type = .CLASS_CONSTRUCTOR_NODE)
    (hdet : ∀ d ∈ n.details, ∃ p, d = some p ∧ p.type ≠ NodeType.RUNNABLE_NODE)
    (hwf : ∀ e ∈ table.paramList, e.dec.type = .CONSTRUCTOR_PARAM →
      ∀ ref, e.reference = some ref → ref.type = .CONSTRUCTOR)
    (hgas : table.paramList.length + n.details.length + 5 ≤ gas) :
    (hasStrictCtorMatch table n = true →
      SA_add_constructor_to_table gas table n
        = (table, [SA_create_semantic_report nullDec .ERROR (some n)
            .ALREADY_DEFINED_EXCEPTION])) ∧
    (hasStrictCtorMatch table n = false →
      ∃ scopeT reports,
        SA_add_constructor_to_table gas table n
          = (table.withParamList (L_add_item table.paramList
              (SA_create_semantic_entry (cs "Constructor")
                { type := .CONSTRUCTOR_PARAM, dimension := 0, classType := none,
                  constant := false }
                .GLOBAL .CONSTRUCTOR (some scopeT))), reports)) := by
  obtain ⟨g1, rfl⟩ : ∃ g1, gas = g1 + 2 := ⟨gas - 2, by omega⟩
  have hloop := SA_contains_ctor_loop_spec table n hdet hntype hwf g1 0 (by omega)
  rw [List.drop_zero] at hloop
  have hcontains : (SA_contains_constructor_of_type (g1+1) (some table) (some n)
      FunctionCallType.CONSTRUCTOR_CALL).status
      = if hasStrictCtorMatch table n then ErrorStatus.SUCCESS else ErrorStatus.NA := by
    rw [SA_contains_constructor_of_type.eq_def]
    simpa [hasStrictCtorMatch] using hloop
  constructor
  · intro hmatch
    have hstat : (SA_contains_constructor_of_type (g1+1) (some table) (some n)
        FunctionCallType.CONSTRUCTOR_CALL).status = ErrorStatus.SUCCESS := by
      rw [hcontains, hmatch]
      simp
    rw [SA_add_constructor_to_table.eq_def]
    simp only [htab]
    rw [if_neg (by simp)]
    rw [if_pos hstat]
  · intro hmatch
    have hstat2 : ¬ (SA_contains_constructor_of_type (g1+1) (some table) (some n)
        FunctionCallType.CONSTRUCTOR_CALL).status = ErrorStatus.SUCCESS := by
      rw [hcontains, hmatch]
      simp
    rw [SA_add_constructor_to_table.eq_def]
    simp only [htab]
    rw [if_neg (by simp)]
    rw [if_neg hstat2]
    exact ⟨_, _, rfl⟩

/-- The `int`-annotated parameter node of a constructor declaration. -/
def ctorParamNodeInt : Node :=
  Node.mk (cs "p") .PARAM_NODE none none
    [some (Node.mk (cs "int") .VAR_TYPE_NODE none none [])]

/-- An existing constructor scope table over one Integer parameter. -/
def existingCtorRef : SemanticTable :=
  .mk [] .CONSTRUCTOR
    [SA_create_semantic_entry (cs "p")
      { type := .INTEGER, dimension := 0, classType := none, constant := false }
      .P_GLOBAL .VARIABLE none]
    [] none

/-- A class table already holding the one-Integer-parameter constructor. -/
def classTableWithCtor : SemanticTable :=
  .mk (cs "A") .CLASS
    [SA_create_semantic_entry (cs "Constructor")
      { type := .CONSTRUCTOR_PARAM, dimension := 0, classType := none, constant := false }
      .GLOBAL .CONSTRUCTOR (some existingCtorRef)]
    [] none

/-- A new constructor declaration with one `int` parameter and no body. -/
def newCtorNode : Node :=
  Node.mk (cs "Constructor") .CLASS_CONSTRUCTOR_NODE none none [some ctorParamNodeInt]

theorem SA_constructor_overload_check_witness :
    SA_add_constructor_to_table 7 classTableWithCtor newCtorNode
      = (classTableWithCtor,
         [SA_create_semantic_report nullDec .ERROR (some newCtorNode)
            .ALREADY_DEFINED_EXCEPTION]) :=
  (SA_constructor_overload_check 7 classTableWithCtor newCtorNode rfl rfl
    (by
      intro d hd
      rw [show newCtorNode.details = [some ctorParamNodeInt] from rfl] at hd
      rw [List.mem_singleton] at hd
      subst hd
      exact ⟨ctorParamNodeInt, rfl, by decide⟩)
    (by
      intro e he hdec ref href
      rw [show classTableWithCtor.paramList
          = [SA_create_semantic_entry (cs "Constructor")
              { type := .CONSTRUCTOR_PARAM, dimension := 0, classType := none,
                constant := false }
              .GLOBAL .CONSTRUCTOR (some existingCtorRef)] from rfl] at he
      rw [List.mem_singleton] at he
      subst he
      have h2 : some existingCtorRef = some ref := href
      rw [← Option.some.injEq existingCtorRef ref |>.mp h2]
      rfl)
    (by decide)).1 (by decide)
